import Mathlib

/-!
Verification of the query-router / response-cache / degraded-mode subsystem of
the portfolio backend (`backend/app/agents.py`, `backend/app/cache.py`,
`backend/app/config.py`).

The Python source is shallowly embedded:

* Python strings are Lean `String`s; the handful of string methods the source
  uses (`lower`, `strip`, `in`, `split`, slicing, `join`) are reimplemented
  below on `String.data` character lists so that every operation is
  executable and provable.
* Python dicts holding program data are association lists
  (`List (String × _)`); `dict.update`, key lookup and key deletion are
  modelled explicitly with Python's semantics (update overwrites, insertion
  order is preserved, updating an existing key keeps its position).
* Python floats from `time.time()` are modelled by an abstract monotone tick
  counter carried in the system state; every call of `time.time()` reads and
  advances it.  All float arithmetic performed by the source on scores
  (sums of 1.0/0.5, division by 3.0, comparison with 0.8/0.5) is exact, so it
  is modelled in `ℚ`.
* Exceptions are values of `PyExn`; code that can raise returns
  `Except PyExn _`, and `try/except` blocks are `match`es on that result.
* The remote model client (`ChatGoogleGenerativeAI`), out of scope for the
  subsystem, is an oracle function in the environment; `json.loads` is
  likewise an oracle `String → Option Json`.
* `hashlib.md5(content).hexdigest()` in the cache key is abstracted to the
  hashed content itself (an injective stand-in for the hash).
-/

namespace Portfolio

/-! ## Python string primitives (on character lists) -/

/-- Python `str.lower()` (per-character lowering, as for the ASCII text the
source manipulates). -/
def pyLower (s : String) : String := ⟨s.data.map Char.toLower⟩

/-- Left-and-right whitespace trimming on a character list. -/
def stripChars (l : List Char) : List Char :=
  ((l.dropWhile Char.isWhitespace).reverse.dropWhile Char.isWhitespace).reverse

/-- Python `str.strip()`. -/
def pyStrip (s : String) : String := ⟨stripChars s.data⟩

/-- Whether `needle` occurs as a contiguous sublist of `haystack`. -/
def infixOfB (needle : List Char) : List Char → Bool
  | [] => needle.isEmpty
  | c :: t => needle.isPrefixOf (c :: t) || infixOfB needle t

/-- Python's substring test `sub in s`. -/
def pyIn (sub s : String) : Bool := infixOfB sub.data s.data

/-- Python slicing `s[:n]` (take the first `n` characters). -/
def pyTake (n : ℕ) (s : String) : String := ⟨s.data.take n⟩

/-- Python `sep.join(parts)`. -/
def pyJoin (sep : String) : List String → String
  | [] => ""
  | [x] => x
  | x :: y :: xs => x ++ sep ++ pyJoin sep (y :: xs)

/-- Python `str.split()` with no argument: split on whitespace runs and drop
empty pieces. -/
def pySplitWs (s : String) : List String :=
  ((s.data.splitOnP Char.isWhitespace).map (fun l => (⟨l⟩ : String))).filter
    (fun p => p ≠ "")

/-- The left brace character, `chr(123)`. -/
def lbrace : Char := Char.ofNat 123

/-- The right brace character, `chr(125)`. -/
def rbrace : Char := Char.ofNat 125

/-! ## Python dicts as association lists -/

/-- Key lookup in a Python dict: the first binding of the key, if any. -/
def dictLookup {α : Type} (d : List (String × α)) (k : String) : Option α :=
  (d.find? (fun p => p.1 == k)).map (·.2)

/-- Python `d[k] = v`: overwrite the binding in place if the key is present
(keeping its position, as Python dicts do), otherwise append it. -/
def dictInsert {α : Type} (d : List (String × α)) (k : String) (v : α) :
    List (String × α) :=
  if d.any (fun p => p.1 == k) then
    d.map (fun p => if p.1 == k then (k, v) else p)
  else
    d ++ [(k, v)]

/-- Python `del d[k]`. -/
def dictErase {α : Type} (d : List (String × α)) (k : String) :
    List (String × α) :=
  d.filter (fun p => !(p.1 == k))

/-- Python `d1.update(d2)`: insert every binding of `d2` into `d1`, in order,
later bindings overwriting earlier ones. -/
def pyUpdate {α : Type} (d e : List (String × α)) : List (String × α) :=
  e.foldl (fun acc kv => dictInsert acc kv.1 kv.2) d

/-- The keys of a dict, in order. -/
def dictKeys {α : Type} (d : List (String × α)) : List String := d.map (·.1)

/-! ## `cache.py` — `QueryCache`

The cache stores values of an abstract type `α` (the response dicts).  The
source's `response.copy()` produces a dict equal to `response`; at this
value level the copy is therefore the value itself (the aliasing behaviour
of `copy()` is treated separately in the heap model below).  `time.time()`
readings are supplied by the caller as the tick `now`, matching the single
internal reading each of `get` and `set` performs. -/

/-- One cache slot: `{"response": value, "timestamp": created-at}` from
`QueryCache.set`. -/
structure CacheEntry (α : Type) where
  response : α
  timestamp : ℕ
deriving DecidableEq

/-- The `QueryCache` object of `cache.py`: bounded store plus hit/miss
counters. -/
structure QueryCache (α : Type) where
  max_size : ℕ
  ttl_seconds : ℕ
  cache : List (String × CacheEntry α)
  hits : ℕ
  misses : ℕ
deriving DecidableEq

/-- A fresh cache, as built by `QueryCache.__init__`. -/
def QueryCache.empty (α : Type) (max_size ttl_seconds : ℕ) : QueryCache α :=
  { max_size := max_size, ttl_seconds := ttl_seconds, cache := [],
    hits := 0, misses := 0 }

/-- Source `QueryCache._generate_key`: the key is derived from
`f"{agent_name}:{query.lower().strip()}"`; the `md5` hexdigest applied to it
in the source is abstracted to the content string itself. -/
def generateKey (query agent_name : String) : String :=
  agent_name ++ ":" ++ pyStrip (pyLower query)

/-- The first entry with minimal timestamp, as computed by
`min(self.cache.items(), key=lambda x: x[1]["timestamp"])` (Python's `min`
keeps the earliest item on ties); `none` exactly when the dict is empty, in
which case Python's `min` raises `ValueError`. -/
def oldestEntry {α : Type} : List (String × CacheEntry α) →
    Option (String × CacheEntry α)
  | [] => none
  | x :: xs =>
      some (xs.foldl (fun acc y => if y.2.timestamp < acc.2.timestamp then y else acc) x)

/-- Source `QueryCache.get`: serve a fresh entry and count a hit; drop an expired
entry; count a miss in every other case.  `now` is the internal
`time.time()` reading. -/
def QueryCache.get {α : Type} (c : QueryCache α) (now : ℕ)
    (query agent_name : String) : Option α × QueryCache α :=
  match dictLookup c.cache (generateKey query agent_name) with
  | some entry =>
      if now - entry.timestamp < c.ttl_seconds then
        (some entry.response, { c with hits := c.hits + 1 })
      else
        (none,
          { c with
            cache := dictErase c.cache (generateKey query agent_name)
            misses := c.misses + 1 })
  | none => (none, { c with misses := c.misses + 1 })

/-- Source `QueryCache.set`: when at capacity first evict the oldest entry — a
`min` over the entries which raises `ValueError` when the store is empty
(which happens exactly when `max_size = 0`) — then store the value with
`createdAt = now`. -/
def QueryCache.set {α : Type} (c : QueryCache α) (now : ℕ)
    (query agent_name : String) (response : α) :
    Except String (QueryCache α) :=
  if c.max_size ≤ c.cache.length then
    match oldestEntry c.cache with
    | none => .error "ValueError: min() arg is an empty sequence"
    | some old =>
        .ok
          { c with
            cache :=
              dictInsert (dictErase c.cache old.1) (generateKey query agent_name)
                ⟨response, now⟩ }
  else
    .ok
      { c with
        cache := dictInsert c.cache (generateKey query agent_name) ⟨response, now⟩ }

/-- Source `QueryCache.clear`: empty the store and reset both counters. -/
def QueryCache.clear {α : Type} (c : QueryCache α) : QueryCache α :=
  { c with cache := [], hits := 0, misses := 0 }

/-- Inserting a batch of `(query, agent, value)` triples with strictly
increasing timestamps `t0, t0+1, …` — the shape of the capacity experiment in
the spec's testable properties. -/
def insertAll {α : Type} (c : QueryCache α) :
    List (String × String × α) → ℕ → Except String (QueryCache α)
  | [], _ => .ok c
  | (q, a, v) :: rest, t =>
      match c.set t q a v with
      | .error e => .error e
      | .ok c' => insertAll c' rest (t + 1)

/-! ### Association-list laws used by the cache proofs -/

theorem dictLookup_nil {α : Type} (k : String) :
    dictLookup ([] : List (String × α)) k = none := rfl

theorem dictLookup_cons {α : Type} (p : String × α) (d : List (String × α))
    (k : String) :
    dictLookup (p :: d) k = if p.1 == k then some p.2 else dictLookup d k := by
  by_cases h : p.1 == k
  · simp [dictLookup, List.find?_cons_of_pos, h]
  · simp only [Bool.not_eq_true] at h
    simp [dictLookup, List.find?_cons_of_neg, h]

theorem dictLookup_overwrite {α : Type} (d : List (String × α))
    (k : String) (v : α) :
    dictLookup (d.map (fun p => if p.1 == k then (k, v) else p)) k =
      if d.any (fun p => p.1 == k) then some v else none := by
  induction d with
  | nil => rfl
  | cons p t ih =>
    rw [List.map_cons, List.any_cons]
    cases hp : p.1 == k
    · rw [if_neg (by simp), dictLookup_cons, if_neg (by simp [hp]), ih,
        Bool.false_or]
    · rw [if_pos rfl, dictLookup_cons]
      simp

theorem dictLookup_overwrite_ne {α : Type} (d : List (String × α))
    (k k' : String) (v : α) (hne : k' ≠ k) :
    dictLookup (d.map (fun p => if p.1 == k then (k, v) else p)) k' =
      dictLookup d k' := by
  induction d with
  | nil => rfl
  | cons p t ih =>
    rw [List.map_cons]
    cases hp : p.1 == k
    · rw [if_neg (by simp), dictLookup_cons, dictLookup_cons, ih]
    · have hpk : p.1 = k := by simpa using hp
      have hkk : ¬ ((k : String) == k') = true := by
        simpa using fun hh => hne hh.symm
      have hpk' : ¬ (p.1 == k') = true := by rw [hpk]; exact hkk
      rw [if_pos rfl, dictLookup_cons, dictLookup_cons, if_neg hkk,
        if_neg hpk', ih]

theorem dictLookup_append_right {α : Type} (d e : List (String × α))
    (k : String) (h : d.any (fun p => p.1 == k) = false) :
    dictLookup (d ++ e) k = dictLookup e k := by
  induction d with
  | nil => rfl
  | cons p t ih =>
    simp only [List.any_cons, Bool.or_eq_false_iff] at h
    rw [List.cons_append, dictLookup_cons]
    simp [h.1, ih h.2]

theorem dictLookup_dictInsert_self {α : Type} (d : List (String × α))
    (k : String) (v : α) : dictLookup (dictInsert d k v) k = some v := by
  unfold dictInsert
  by_cases h : d.any (fun p => p.1 == k) = true
  · rw [if_pos h, dictLookup_overwrite, if_pos h]
  · simp only [Bool.not_eq_true] at h
    simp only [h, Bool.false_eq_true, if_false]
    rw [dictLookup_append_right _ _ _ h, dictLookup_cons]
    simp

theorem dictLookup_dictInsert_ne {α : Type} (d : List (String × α))
    (k k' : String) (v : α) (hne : k' ≠ k) :
    dictLookup (dictInsert d k v) k' = dictLookup d k' := by
  unfold dictInsert
  by_cases h : d.any (fun p => p.1 == k) = true
  · rw [if_pos h, dictLookup_overwrite_ne _ _ _ _ hne]
  · simp only [Bool.not_eq_true] at h
    simp only [h, Bool.false_eq_true, if_false]
    induction d with
    | nil =>
      have : ¬ ((k : String) == k') = true := by
        simpa using fun hh => hne hh.symm
      simp [dictLookup_cons, this, dictLookup_nil]
    | cons p t ih =>
      simp only [List.any_cons, Bool.or_eq_false_iff] at h
      rw [List.cons_append, dictLookup_cons, dictLookup_cons]
      by_cases hq : p.1 == k'
      · simp [hq]
      · simp only [Bool.not_eq_true] at hq
        simp [hq, ih h.2]

theorem dictLookup_dictErase_self {α : Type} (d : List (String × α))
    (k : String) : dictLookup (dictErase d k) k = none := by
  induction d with
  | nil => rfl
  | cons p t ih =>
    unfold dictErase at ih ⊢
    by_cases hp : p.1 == k
    · simp [List.filter_cons, hp, ih]
    · simp only [Bool.not_eq_true] at hp
      simp [List.filter_cons, hp, dictLookup_cons, ih]

theorem dictKeys_dictErase {α : Type} (d : List (String × α)) (k : String) :
    dictKeys (dictErase d k) = (dictKeys d).filter (fun x => !(x == k)) := by
  induction d with
  | nil => rfl
  | cons p t ih =>
    unfold dictErase dictKeys at ih ⊢
    by_cases hp : p.1 == k
    · simp [List.filter_cons, hp, ih]
    · simp only [Bool.not_eq_true] at hp
      simp [List.filter_cons, hp, ih]

theorem dictErase_length_of_mem {α : Type} (d : List (String × α)) (k : String)
    (hnd : (dictKeys d).Nodup) (hmem : k ∈ dictKeys d) :
    (dictErase d k).length + 1 = d.length := by
  induction d with
  | nil => simp [dictKeys] at hmem
  | cons p t ih =>
    simp only [dictKeys, List.map_cons, List.nodup_cons] at hnd
    simp only [dictKeys, List.map_cons, List.mem_cons] at hmem
    unfold dictErase
    by_cases hp : p.1 == k
    · have hpk : p.1 = k := by simpa using hp
      have : dictErase t k = t := by
        unfold dictErase
        apply List.filter_eq_self.2
        intro a ha
        simp only [Bool.not_eq_eq_eq_not, Bool.not_true, beq_eq_false_iff_ne]
        intro hak
        have : p.1 ∈ List.map (fun x => x.1) t := by
          rw [hpk, ← hak]
          exact List.mem_map_of_mem (·.1) ha
        exact hnd.1 this
      simpa [List.filter_cons, hp, dictErase] using congrArg List.length this
    · simp only [Bool.not_eq_true] at hp
      have hkt : k ∈ dictKeys t := by
        rcases hmem with h | h
        · exact absurd h.symm (by simpa using hp)
        · exact h
      simp only [List.filter_cons, hp, Bool.not_false, List.length_cons]
      have := ih hnd.2 hkt
      simpa [dictErase] using this

theorem dictKeys_append {α : Type} (d e : List (String × α)) :
    dictKeys (d ++ e) = dictKeys d ++ dictKeys e := by
  simp [dictKeys]

theorem dictInsert_of_fresh {α : Type} (d : List (String × α)) (k : String)
    (v : α) (h : k ∉ dictKeys d) : dictInsert d k v = d ++ [(k, v)] := by
  unfold dictInsert
  have hfresh : d.any (fun p => p.1 == k) = false := by
    rw [List.any_eq_false]
    intro p hp hpk
    have hpk' : p.1 = k := by simpa using hpk
    exact h (hpk' ▸ List.mem_map_of_mem (·.1) hp)
  rw [if_neg (by simp [hfresh])]

theorem mem_dictKeys_of_any {α : Type} (d : List (String × α)) (k : String)
    (h : d.any (fun p => p.1 == k) = true) : k ∈ dictKeys d := by
  simp only [List.any_eq_true] at h
  rcases h with ⟨p, hp, hpk⟩
  have : p.1 = k := by simpa using hpk
  exact this ▸ List.mem_map_of_mem (·.1) hp

/-! ### `min` over the entry list -/

theorem oldestEntry_aux_mem {α : Type} (xs : List (String × CacheEntry α))
    (a : String × CacheEntry α) :
    xs.foldl (fun acc y => if y.2.timestamp < acc.2.timestamp then y else acc) a
      ∈ a :: xs := by
  induction xs generalizing a with
  | nil => simp
  | cons x t ih =>
    have h := ih (if x.2.timestamp < a.2.timestamp then x else a)
    rw [List.foldl_cons]
    rcases List.mem_cons.1 h with h | h
    · rw [h]
      by_cases hx : x.2.timestamp < a.2.timestamp
      · rw [if_pos hx]
        exact List.mem_cons_of_mem _ (List.mem_cons_self _ _)
      · rw [if_neg hx]
        exact List.mem_cons_self _ _
    · exact List.mem_cons_of_mem _ (List.mem_cons_of_mem _ h)

theorem oldestEntry_aux_min {α : Type} (xs : List (String × CacheEntry α))
    (a : String × CacheEntry α) :
    (xs.foldl (fun acc y => if y.2.timestamp < acc.2.timestamp then y else acc)
        a).2.timestamp ≤ a.2.timestamp ∧
    ∀ p ∈ xs,
      (xs.foldl (fun acc y => if y.2.timestamp < acc.2.timestamp then y else acc)
          a).2.timestamp ≤ p.2.timestamp := by
  induction xs generalizing a with
  | nil => simp
  | cons x t ih =>
    obtain ⟨ih1, ih2⟩ := ih (if x.2.timestamp < a.2.timestamp then x else a)
    constructor
    · by_cases hx : x.2.timestamp < a.2.timestamp
      · simp only [List.foldl_cons]
        calc _ ≤ _ := ih1
        _ ≤ a.2.timestamp := by simp [hx]; omega
      · simp only [List.foldl_cons]
        calc _ ≤ _ := ih1
        _ ≤ a.2.timestamp := by simp [hx]
    · intro p hp
      rcases List.mem_cons.1 hp with h | h
      · subst h
        simp only [List.foldl_cons]
        calc _ ≤ _ := ih1
        _ ≤ p.2.timestamp := by
          by_cases hx : p.2.timestamp < a.2.timestamp <;> simp [hx] <;> omega
      · simpa using ih2 p h

theorem oldestEntry_mem {α : Type} (l : List (String × CacheEntry α))
    (x : String × CacheEntry α) (h : oldestEntry l = some x) : x ∈ l := by
  cases l with
  | nil => simp [oldestEntry] at h
  | cons a t =>
    simp only [oldestEntry, Option.some.injEq] at h
    exact h ▸ oldestEntry_aux_mem t a

theorem oldestEntry_min {α : Type} (l : List (String × CacheEntry α))
    (x : String × CacheEntry α) (h : oldestEntry l = some x) :
    ∀ p ∈ l, x.2.timestamp ≤ p.2.timestamp := by
  cases l with
  | nil => simp [oldestEntry] at h
  | cons a t =>
    simp only [oldestEntry, Option.some.injEq] at h
    intro p hp
    obtain ⟨h1, h2⟩ := oldestEntry_aux_min t a
    rcases List.mem_cons.1 hp with hh | hh
    · exact h ▸ hh ▸ h1
    · exact h ▸ h2 p hh

theorem oldestEntry_isSome {α : Type} (l : List (String × CacheEntry α))
    (h : l ≠ []) : ∃ x, oldestEntry l = some x := by
  cases l with
  | nil => exact absurd rfl h
  | cons a t => exact ⟨_, rfl⟩

/-! ### Shape of a successful `set` -/

theorem set_ok_shape {α : Type} (c : QueryCache α) (now : ℕ) (q a : String)
    (v : α) (c' : QueryCache α) (hset : c.set now q a v = .ok c') :
    (∃ D, c'.cache = dictInsert D (generateKey q a) ⟨v, now⟩) ∧
    c'.max_size = c.max_size ∧ c'.ttl_seconds = c.ttl_seconds ∧
    c'.hits = c.hits ∧ c'.misses = c.misses := by
  unfold QueryCache.set at hset
  by_cases h : c.max_size ≤ c.cache.length
  · rw [if_pos h] at hset
    rcases ho : oldestEntry c.cache with _ | old
    · rw [ho] at hset
      exact absurd hset (by simp)
    · rw [ho] at hset
      simp only [Except.ok.injEq] at hset
      subst hset
      exact ⟨⟨dictErase c.cache old.1, rfl⟩, rfl, rfl, rfl, rfl⟩
  · rw [if_neg h] at hset
    simp only [Except.ok.injEq] at hset
    subst hset
    exact ⟨⟨c.cache, rfl⟩, rfl, rfl, rfl, rfl⟩

/-- C5: a `set` immediately followed by a `get` for the same query and
handler identity serves the stored value and counts a hit while the entry's
age is below the TTL; at or past the TTL the `get` deletes the entry, counts
a miss (the hit counter is untouched) and returns `None`. -/
theorem C5_cache_set_then_get {α : Type} (c : QueryCache α) (now : ℕ)
    (q a : String) (v : α) (c' : QueryCache α)
    (hset : c.set now q a v = .ok c') :
    (∀ t, t - now < c.ttl_seconds →
        c'.get t q a = (some v, { c' with hits := c'.hits + 1 })) ∧
    (∀ t, c.ttl_seconds ≤ t - now →
        (c'.get t q a).1 = none ∧
        (c'.get t q a).2.misses = c'.misses + 1 ∧
        (c'.get t q a).2.hits = c'.hits ∧
        dictLookup (c'.get t q a).2.cache (generateKey q a) = none) := by
  obtain ⟨⟨D, hD⟩, _, httl, _, _⟩ := set_ok_shape c now q a v c' hset
  have hlook : dictLookup c'.cache (generateKey q a) = some ⟨v, now⟩ := by
    rw [hD]; exact dictLookup_dictInsert_self D _ _
  constructor
  · intro t ht
    unfold QueryCache.get
    rw [hlook]
    simp only
    rw [if_pos (by rw [httl]; exact ht)]
  · intro t ht
    unfold QueryCache.get
    rw [hlook]
    simp only
    rw [if_neg (by rw [httl]; omega)]
    refine ⟨rfl, rfl, rfl, ?_⟩
    exact dictLookup_dictErase_self c'.cache (generateKey q a)

/-- Witness for C5 at a concrete input: storing `7` under query `"Hello"`
for handler `"agent"` at tick `0` in an empty 10-slot, 100-tick cache. -/
theorem C5_cache_set_then_get_witness :
    ((⟨10, 100, [("agent:hello", ⟨7, 0⟩)], 0, 0⟩ : QueryCache ℕ).get 5 "Hello" "agent"
        = (some 7, ⟨10, 100, [("agent:hello", ⟨7, 0⟩)], 1, 0⟩)) ∧
    (((⟨10, 100, [("agent:hello", ⟨7, 0⟩)], 0, 0⟩ : QueryCache ℕ).get 200 "Hello" "agent").1 = none ∧
      ((⟨10, 100, [("agent:hello", ⟨7, 0⟩)], 0, 0⟩ : QueryCache ℕ).get 200 "Hello" "agent").2.misses = 0 + 1 ∧
      ((⟨10, 100, [("agent:hello", ⟨7, 0⟩)], 0, 0⟩ : QueryCache ℕ).get 200 "Hello" "agent").2.hits = 0 ∧
      dictLookup ((⟨10, 100, [("agent:hello", ⟨7, 0⟩)], 0, 0⟩ : QueryCache ℕ).get 200 "Hello" "agent").2.cache
        (generateKey "Hello" "agent") = none) := by
  have h := C5_cache_set_then_get (QueryCache.empty ℕ 10 100) 0 "Hello" "agent" 7
    ⟨10, 100, [("agent:hello", ⟨7, 0⟩)], 0, 0⟩ rfl
  exact ⟨h.1 5 (by decide), h.2 200 (by decide)⟩

/-! ### Capacity: auxiliary facts -/

theorem mem_dictKeys_of_mem {α : Type} {d : List (String × α)} {p : String × α}
    (hp : p ∈ d) : p.1 ∈ dictKeys d := List.mem_map_of_mem (·.1) hp

theorem dictKeys_dictInsert_fresh {α : Type} (d : List (String × α))
    (k : String) (v : α) (h : k ∉ dictKeys d) :
    dictKeys (dictInsert d k v) = dictKeys d ++ [k] := by
  rw [dictInsert_of_fresh d k v h, dictKeys_append]
  rfl

theorem length_dictInsert_fresh {α : Type} (d : List (String × α))
    (k : String) (v : α) (h : k ∉ dictKeys d) :
    (dictInsert d k v).length = d.length + 1 := by
  rw [dictInsert_of_fresh d k v h, List.length_append]
  rfl

theorem nodup_append_singleton {l : List String} {k : String}
    (hl : l.Nodup) (hk : k ∉ l) : (l ++ [k]).Nodup := by
  rw [List.nodup_append]
  refine ⟨hl, List.nodup_singleton k, ?_⟩
  intro a ha
  simp only [List.mem_singleton]
  intro hak
  exact hk (hak ▸ ha)

theorem mem_dictKeys_dictErase {α : Type} {d : List (String × α)}
    {k k' : String} (h : k' ∈ dictKeys (dictErase d k)) : k' ∈ dictKeys d := by
  rw [dictKeys_dictErase] at h
  exact List.mem_of_mem_filter h

theorem nodup_dictKeys_dictErase {α : Type} (d : List (String × α))
    (k : String) (h : (dictKeys d).Nodup) :
    (dictKeys (dictErase d k)).Nodup := by
  rw [dictKeys_dictErase]
  exact h.filter _

/-- Capacity invariant of the fold of `set` over a batch of fresh,
pairwise-distinct keys: every insertion succeeds (the store is never empty
when an eviction is due, because `max_size ≥ 1`), the key set stays
duplicate-free, and the size is the capped sum. -/
theorem insertAll_ok_length {α : Type} :
    ∀ (items : List (String × String × α)) (c : QueryCache α) (t : ℕ),
    1 ≤ c.max_size →
    (dictKeys c.cache).Nodup →
    c.cache.length ≤ c.max_size →
    (items.map (fun i => generateKey i.1 i.2.1)).Nodup →
    (∀ i ∈ items, generateKey i.1 i.2.1 ∉ dictKeys c.cache) →
    ∃ c', insertAll c items t = .ok c' ∧
      c'.cache.length = min (c.cache.length + items.length) c.max_size ∧
      c'.max_size = c.max_size ∧ (dictKeys c'.cache).Nodup := by
  intro items
  induction items with
  | nil =>
    intro c t hms hnd hlen _ _
    exact ⟨c, rfl, by simpa using Nat.min_eq_left hlen, rfl, hnd⟩
  | cons i rest ih =>
    intro c t hms hnd hlen hkeys hfresh
    obtain ⟨q, a, v⟩ := i
    simp only [List.map_cons, List.nodup_cons] at hkeys
    have hfresh0 : generateKey q a ∉ dictKeys c.cache :=
      hfresh (q, a, v) (List.mem_cons_self _ _)
    by_cases hcap : c.max_size ≤ c.cache.length
    · -- at capacity: evict the oldest entry, then insert
      have hlen' : c.cache.length = c.max_size := le_antisymm hlen hcap
      have hne : c.cache ≠ [] := by
        intro hnil
        rw [hnil] at hlen'
        simp at hlen'
        omega
      obtain ⟨old, hold⟩ := oldestEntry_isSome c.cache hne
      have holdmem : old ∈ c.cache := oldestEntry_mem c.cache old hold
      have holdkey : old.1 ∈ dictKeys c.cache := mem_dictKeys_of_mem holdmem
      have herase : (dictErase c.cache old.1).length + 1 = c.cache.length :=
        dictErase_length_of_mem c.cache old.1 hnd holdkey
      have hfresh1 : generateKey q a ∉ dictKeys (dictErase c.cache old.1) :=
        fun hmem => hfresh0 (mem_dictKeys_dictErase hmem)
      set c1 : QueryCache α :=
        { c with
          cache :=
            dictInsert (dictErase c.cache old.1) (generateKey q a) ⟨v, t⟩ } with hc1
      have hset : c.set t q a v = .ok c1 := by
        unfold QueryCache.set
        rw [if_pos hcap, hold]
      have hc1len : c1.cache.length = c.max_size := by
        rw [hc1]
        simp only
        rw [length_dictInsert_fresh _ _ _ hfresh1]
        omega
      have hc1nd : (dictKeys c1.cache).Nodup := by
        rw [hc1]
        simp only
        rw [dictKeys_dictInsert_fresh _ _ _ hfresh1]
        exact nodup_append_singleton (nodup_dictKeys_dictErase _ _ hnd) hfresh1
      have hc1keys : ∀ x ∈ dictKeys c1.cache,
          x ∈ dictKeys c.cache ∨ x = generateKey q a := by
        intro x hx
        rw [hc1] at hx
        simp only at hx
        rw [dictKeys_dictInsert_fresh _ _ _ hfresh1, List.mem_append] at hx
        rcases hx with hx | hx
        · exact Or.inl (mem_dictKeys_dictErase hx)
        · exact Or.inr (by simpa using hx)
      obtain ⟨c', hrun, hlen2, hmax2, hnd2⟩ :=
        ih c1 (t + 1) (by rw [hc1]; exact hms) hc1nd (by rw [hc1len])
          hkeys.2
          (by
            intro j hj hmem
            rcases hc1keys _ hmem with hmem' | hmem'
            · exact hfresh j (List.mem_cons_of_mem _ hj) hmem'
            · exact hkeys.1 (hmem' ▸ List.mem_map_of_mem _ hj))
      refine ⟨c', ?_, ?_, ?_, hnd2⟩
      · unfold insertAll
        rw [hset]
        exact hrun
      · rw [hlen2, hc1len]
        have hmax1 : c1.max_size = c.max_size := by rw [hc1]
        rw [hmax1, hlen', List.length_cons]
        omega
      · rw [hmax2, hc1]
    · -- below capacity: plain insert
      push_neg at hcap
      set c1 : QueryCache α :=
        { c with cache := dictInsert c.cache (generateKey q a) ⟨v, t⟩ } with hc1
      have hset : c.set t q a v = .ok c1 := by
        unfold QueryCache.set
        rw [if_neg (by omega)]
      have hc1len : c1.cache.length = c.cache.length + 1 := by
        rw [hc1]
        simp only
        rw [length_dictInsert_fresh _ _ _ hfresh0]
      have hc1nd : (dictKeys c1.cache).Nodup := by
        rw [hc1]
        simp only
        rw [dictKeys_dictInsert_fresh _ _ _ hfresh0]
        exact nodup_append_singleton hnd hfresh0
      obtain ⟨c', hrun, hlen2, hmax2, hnd2⟩ :=
        ih c1 (t + 1) (by rw [hc1]; exact hms) hc1nd
          (by rw [hc1len]; rw [hc1]; simp only; omega)
          hkeys.2
          (by
            intro j hj hmem
            rw [hc1] at hmem
            simp only at hmem
            rw [dictKeys_dictInsert_fresh _ _ _ hfresh0, List.mem_append] at hmem
            rcases hmem with hmem | hmem
            · exact hfresh j (List.mem_cons_of_mem _ hj) hmem
            · exact hkeys.1 ((by simpa using hmem : generateKey j.1 j.2.1 = generateKey q a) ▸
                List.mem_map_of_mem _ hj))
      refine ⟨c', ?_, ?_, ?_, hnd2⟩
      · unfold insertAll
        rw [hset]
        exact hrun
      · rw [hlen2, hc1len]
        have hmax1 : c1.max_size = c.max_size := by rw [hc1]
        rw [hmax1, List.length_cons]
        omega
      · rw [hmax2, hc1]

theorem length_dictInsert_le {α : Type} (d : List (String × α)) (k : String)
    (v : α) : (dictInsert d k v).length ≤ d.length + 1 := by
  unfold dictInsert
  split
  · rw [List.length_map]
    omega
  · rw [List.length_append]
    simp

theorem length_dictErase_lt_of_mem {α : Type} (d : List (String × α))
    (k : String) (h : k ∈ dictKeys d) : (dictErase d k).length < d.length := by
  unfold dictErase
  induction d with
  | nil => simp [dictKeys] at h
  | cons p t ih =>
    simp only [dictKeys, List.map_cons, List.mem_cons] at h
    rw [List.filter_cons]
    by_cases hp : p.1 == k
    · rw [if_neg (by simp [hp])]
      calc (t.filter (fun p => !(p.1 == k))).length
          ≤ t.length := List.length_filter_le _ _
        _ < (p :: t).length := by simp
    · have hkt : k ∈ dictKeys t := by
        rcases h with h | h
        · exact absurd h.symm (by simpa using hp)
        · exact h
      rw [if_pos (by simp [hp])]
      have := ih hkt
      simp only [List.length_cons]
      omega

theorem set_preserves_capacity {α : Type} (c : QueryCache α) (now : ℕ)
    (q a : String) (v : α) (c' : QueryCache α)
    (hle : c.cache.length ≤ c.max_size) (hset : c.set now q a v = .ok c') :
    c'.cache.length ≤ c.max_size := by
  unfold QueryCache.set at hset
  by_cases hcap : c.max_size ≤ c.cache.length
  · rw [if_pos hcap] at hset
    rcases ho : oldestEntry c.cache with _ | old
    · rw [ho] at hset
      exact absurd hset (by simp)
    · rw [ho] at hset
      simp only [Except.ok.injEq] at hset
      have hmem : old.1 ∈ dictKeys c.cache :=
        mem_dictKeys_of_mem (oldestEntry_mem _ _ ho)
      have h1 := length_dictErase_lt_of_mem c.cache old.1 hmem
      have h2 := length_dictInsert_le (dictErase c.cache old.1)
        (generateKey q a) (⟨v, now⟩ : CacheEntry α)
      have h3 : c'.cache =
          dictInsert (dictErase c.cache old.1) (generateKey q a) ⟨v, now⟩ := by
        rw [← hset]
      rw [h3]
      omega
  · rw [if_neg hcap] at hset
    simp only [Except.ok.injEq] at hset
    have h3 : c'.cache = dictInsert c.cache (generateKey q a) ⟨v, now⟩ := by
      rw [← hset]
    have h2 := length_dictInsert_le c.cache (generateKey q a)
      (⟨v, now⟩ : CacheEntry α)
    rw [h3]
    omega

theorem get_never_grows {α : Type} (c : QueryCache α) (now : ℕ)
    (q a : String) : ((c.get now q a).2).cache.length ≤ c.cache.length := by
  unfold QueryCache.get
  cases hl : dictLookup c.cache (generateKey q a) with
  | none => exact le_refl _
  | some entry =>
      dsimp only
      split
      · exact le_refl _
      · exact List.length_filter_le _ _

/-- C6 (amended): for every capacity `max_size ≥ 1`, inserting `max_size + k`
keys (`k ≥ 1`) with pairwise-distinct cache keys into a fresh cache succeeds
and leaves exactly `max_size` live entries; every eviction performed by
`set` at capacity removes an entry whose `createdAt` timestamp is minimal
among the entries live at that moment; and — for every `max_size`, 0
included — the entry count never exceeds `max_size` after any operation: a
successful `set` preserves the bound (at `max_size = 0` it raises before
inserting), `get` never adds an entry, and `clear` empties the store.
(Only the "for every max_size the insertions complete" part of the original
claim fails, at `max_size = 0`: see the counterexample.) -/
theorem C6_capacity_invariant (α : Type) (ms ttl k : ℕ) (hms : 1 ≤ ms)
    (hk : 1 ≤ k) (items : List (String × String × α))
    (hlen : items.length = ms + k)
    (hnd : (items.map (fun i => generateKey i.1 i.2.1)).Nodup) :
    (∃ c', insertAll (QueryCache.empty α ms ttl) items 0 = .ok c' ∧
        c'.cache.length = ms) ∧
    (∀ (c : QueryCache α) (now : ℕ) (q a : String) (v : α) (c' : QueryCache α),
        c.max_size ≤ c.cache.length →
        c.set now q a v = .ok c' →
        ∃ old, old ∈ c.cache ∧
          (∀ p ∈ c.cache, old.2.timestamp ≤ p.2.timestamp) ∧
          c'.cache =
            dictInsert (dictErase c.cache old.1) (generateKey q a) ⟨v, now⟩) ∧
    (∀ (c : QueryCache α) (now : ℕ) (q a : String) (v : α) (c' : QueryCache α),
        c.cache.length ≤ c.max_size →
        c.set now q a v = .ok c' →
        c'.cache.length ≤ c.max_size) ∧
    (∀ (c : QueryCache α) (now : ℕ) (q a : String),
        ((c.get now q a).2).cache.length ≤ c.cache.length) ∧
    (∀ c : QueryCache α, (QueryCache.clear c).cache.length ≤ c.max_size) := by
  refine ⟨?_, ?_, ?_, ?_, ?_⟩
  · obtain ⟨c', hrun, hlen', _, _⟩ :=
      insertAll_ok_length items (QueryCache.empty α ms ttl) 0 hms
        List.nodup_nil (Nat.zero_le ms) hnd
        (by intro i _ h; simp [dictKeys, QueryCache.empty] at h)
    refine ⟨c', hrun, ?_⟩
    rw [hlen']
    show min (List.length [] + items.length) ms = ms
    rw [hlen]
    simp only [List.length_nil, Nat.zero_add]
    omega
  · intro c now q a v c' hcap hset
    unfold QueryCache.set at hset
    rw [if_pos hcap] at hset
    rcases ho : oldestEntry c.cache with _ | old
    · rw [ho] at hset
      exact absurd hset (by simp)
    · rw [ho] at hset
      simp only [Except.ok.injEq] at hset
      refine ⟨old, oldestEntry_mem c.cache old ho, oldestEntry_min c.cache old ho, ?_⟩

      rw [← hset]
  · intro c now q a v c' hle hset
    exact set_preserves_capacity c now q a v c' hle hset
  · intro c now q a
    exact get_never_grows c now q a
  · intro c
    simp [QueryCache.clear]

/-- Witness for C6 (amended) at capacity 1 with two distinct keys. -/
theorem C6_capacity_invariant_witness :
    (∃ c', insertAll (QueryCache.empty ℕ 1 3600) [("a", "x", 0), ("b", "x", 0)] 0 =
        .ok c' ∧ c'.cache.length = 1) ∧
    (∀ (c : QueryCache ℕ) (now : ℕ) (q a : String) (v : ℕ) (c' : QueryCache ℕ),
        c.max_size ≤ c.cache.length →
        c.set now q a v = .ok c' →
        ∃ old, old ∈ c.cache ∧
          (∀ p ∈ c.cache, old.2.timestamp ≤ p.2.timestamp) ∧
          c'.cache =
            dictInsert (dictErase c.cache old.1) (generateKey q a) ⟨v, now⟩) ∧
    (∀ (c : QueryCache ℕ) (now : ℕ) (q a : String) (v : ℕ) (c' : QueryCache ℕ),
        c.cache.length ≤ c.max_size →
        c.set now q a v = .ok c' →
        c'.cache.length ≤ c.max_size) ∧
    (∀ (c : QueryCache ℕ) (now : ℕ) (q a : String),
        ((c.get now q a).2).cache.length ≤ c.cache.length) ∧
    (∀ c : QueryCache ℕ, (QueryCache.clear c).cache.length ≤ c.max_size) :=
  C6_capacity_invariant ℕ 1 3600 1 (by decide) (by decide)
    [("a", "x", 0), ("b", "x", 0)] (by decide) (by decide)

/-- C6 counterexample to the claim as stated (quantifying over every
`max_size`): with `max_size = 0` the very first insertion does not leave the
cache holding `max_size` entries — `set` raises `ValueError`, because Python's
`min` is applied to the empty entry dict before the insert. -/
theorem C6_counterexample_max_size_zero :
    insertAll (QueryCache.empty ℕ 0 3600) [("q", "agent", 5)] 0 =
      .error "ValueError: min() arg is an empty sequence" := rfl

/-! ## Heap model of `cache.py` for the aliasing claims

The value-level cache above treats response dicts as immutable values, which
is adequate for every claim about dict contents.  `copy()` and in-place
mutation, however, are about CPython object identity: `set` stores
`response.copy()` — a copy of the top level only, whose nested values are
shared references — and `get` returns the stored dict object itself
(`return cached["response"]`, no copy).  This section re-embeds those two
lines with dict objects living on an explicit heap so the aliasing is
expressible; the store itself is the same `QueryCache`, holding heap
addresses as its values. -/

/-- A Python value as stored in a response dict: a primitive, or a reference
to another dict object on the heap. -/
inductive HVal where
  | str (s : String)
  | num (n : ℤ)
  | ref (addr : ℕ)
deriving DecidableEq

/-- A dict object: its top-level key/value pairs. -/
abbrev HDict := List (String × HVal)

/-- The heap: dict objects addressed by position. -/
abbrev Heap := List HDict

/-- Allocate a fresh dict object. -/
def Heap.alloc (h : Heap) (d : HDict) : Heap × ℕ := (h ++ [d], h.length)

/-- Dereference an address. -/
def Heap.read (h : Heap) (a : ℕ) : HDict := h.getD a []

/-- Mutate the dict object at an address in place. -/
def Heap.write (h : Heap) (a : ℕ) (d : HDict) : Heap := h.set a d

/-- Python's `dict.copy()`: a NEW top-level object whose pairs — including
any `HVal.ref` to nested dicts — are shared with the original. -/
def heapCopy (h : Heap) (a : ℕ) : Heap × ℕ := h.alloc (h.read a)

/-- Source `QueryCache.set` at the heap level:
`self.cache[key] = {"response": response.copy(), "timestamp": now}` stores
the address of a fresh shallow copy of the caller's dict. -/
def hset (h : Heap) (c : QueryCache ℕ) (now : ℕ) (q a : String) (addr : ℕ) :
    Heap × Except String (QueryCache ℕ) :=
  ((heapCopy h addr).1, c.set now q a (heapCopy h addr).2)

/-- The concrete failing input for the deep-copy claim: the caller's response
dict lives at address 1 and holds a nested dict (its `"viewport"` value) at
address 0. -/
def c7heap : Heap := [[("type", HVal.str "text")], [("viewport", HVal.ref 0)]]

/-- Heap and cache after `set("q", "agent", <dict at address 1>)` at tick 5. -/
def c7afterSet : Heap × Except String (QueryCache ℕ) :=
  hset c7heap (QueryCache.empty ℕ 10 100) 5 "q" "agent" 1

/-- The cache state produced by that `set`: the key maps to address 2, the
shallow copy. -/
def c7cache1 : QueryCache ℕ := ⟨10, 100, [("agent:q", ⟨2, 5⟩)], 0, 0⟩

/-- C7 evaluated at the failing input: the stored "copy" (address 2) still
references the caller's nested dict (address 0), so mutating that nested
dict after `set` changes what a later `get` serves; and `get` returns the
stored address itself, so writing through the dict `get` returned changes
the cache's content for every subsequent `get`.  Both contradict the claim
that the cache stores and serves defensive deep copies (and the source's own
comment `# Deep copy to prevent mutations`). -/
theorem C7_shallow_copy_and_get_aliasing :
    c7afterSet = (c7heap ++ [[("viewport", HVal.ref 0)]], .ok c7cache1) ∧
    (c7cache1.get 6 "q" "agent").1 = some 2 ∧
    dictLookup ((c7afterSet.1.write 0 [("type", HVal.str "MUTATED")]).read 2)
      "viewport" = some (HVal.ref 0) ∧
    (c7afterSet.1.write 0 [("type", HVal.str "MUTATED")]).read 0 =
      [("type", HVal.str "MUTATED")] ∧
    ((c7afterSet.1.write 2 [("type", HVal.str "HACKED")]).read 2 =
      [("type", HVal.str "HACKED")]) ∧
    (c7cache1.get 7 "q" "agent").1 = some 2 :=
  ⟨rfl, rfl, rfl, rfl, rfl, rfl⟩

/-! ## `agents.py` — data model

The agent layer is embedded with the remote model client as an oracle: an
optional function from (system prompt, human message) to either a reply
string or a raised exception.  The portfolio store and loader summaries
(`portfolio_loader`, an external collaborator) are plain data in the
environment.  Analytics logging is fire-and-forget with every exception
swallowed inside its own `try/except` and no influence on any returned
value, so it is not modelled. -/

/-- A raised Python exception, as observed through `str(e)` and
exception-type checks. -/
inductive PyExn where
  | attributeError (msg : String)
  | pyError (msg : String)
deriving DecidableEq

/-- Python's `str(e)` on a caught exception. -/
def PyExn.msg : PyExn → String
  | .attributeError m => m
  | .pyError m => m

/-- A parsed JSON value, the result of `json.loads`. -/
inductive Json where
  | null
  | bool (b : Bool)
  | num (n : ℤ)
  | str (s : String)
  | arr (elems : List Json)
  | obj (fields : List (String × Json))

/-- Python `structured_data.get(key, default)` on a parsed JSON object's
field list. -/
def jsonObjGet (fields : List (String × Json)) (k : String) (d : Json) : Json :=
  (dictLookup fields k).getD d

/-- The `"star"` sub-record of a project or experience entry
(`models.StarFormat`). -/
structure StarFormat where
  situation : String
  task : String
  result : String

/-- The profile record (`models.Profile`; only the fields the agents read). -/
structure Profile where
  name : String
  title : String
  summary : String

/-- The education record (`models.Education`). -/
structure Education where
  degree : String
  university : String
  gpa : String

/-- A project entry (`models.Project`; only the fields the agents read). -/
structure Project where
  title : String
  star : StarFormat
  technologies : List String
  featured : Bool

/-- An experience entry (`models.Experience`). -/
structure Experience where
  company : String
  role : String
  duration : String
  star : StarFormat

/-- The loaded portfolio data (`portfolio_loader.portfolio_data`). -/
structure PortfolioData where
  profile : Profile
  education : Education
  projects : List Project
  experience : List Experience

/-- The remote model client: `(system prompt, human message) ↦ reply text`,
or a raised exception (timeouts, rate limits and other client errors all
surface as exceptions whose `str(e)` the source inspects). -/
abbrev LLMCall : Type := String → String → Except PyExn String

/-- The `"viewport_content"` sub-dict of a result. -/
structure Viewport where
  vtype : String
  message : Option String := none
  agent : Option String := none
  content : Option String := none
  retry_after : Option ℕ := none
  kanban_data : Option Json := none
  summary_data : Option Json := none

/-- A structured result dict as produced by the agents and the router; keys
a given code path does not set are `none`. -/
structure AgentResult where
  response : String
  viewport_content : Viewport
  agent_used : String
  processing_time : ℚ
  error : Option String := none
  error_type : Option String := none
  cached : Option Bool := none
  kanban_data : Option Json := none
  summary_data : Option Json := none
  match_score : Option Json := none
  routed_to : Option String := none
  total_processing_time : Option ℚ := none

/-- The five registered agents (`RouterAgent.__init__`). -/
inductive AgentKind where
  | profile
  | project
  | career
  | demo
  | strategic_fit
deriving DecidableEq

/-- The `name` each agent passes to `PortfolioAgent.__init__`. -/
def agentName : AgentKind → String
  | .profile => "Profile Agent"
  | .project => "Project Agent"
  | .career => "Career Agent"
  | .demo => "Demo Agent"
  | .strategic_fit => "Strategic Fit Agent"

/-- The `Settings` pydantic model of `config.py`.  It defines exactly these
fields; in particular there is NO field named `cache_enabled`. -/
structure Settings where
  google_api_key : String
  google_model : String
  cors_origins : List String
  debug : Bool
  host : String
  port : ℕ
  max_request_size : ℕ
  request_timeout : ℕ
  rate_limit_requests : ℕ
  rate_limit_window : ℕ
  portfolio_owner : String
  portfolio_title : String
  log_level : String
  log_format : String
  log_to_file : Bool
  log_rotation_size : ℕ
  log_retention_days : ℕ

/-- Evaluating `settings.cache_enabled` (`agents.py` lines 68 and 93):
`Settings` declares no such field, so Python attribute lookup raises
`AttributeError` for every `Settings` instance. -/
def cacheEnabledExn : PyExn :=
  .attributeError
    "\u0027Settings\u0027 object has no attribute \u0027cache_enabled\u0027"

/-- The raising attribute access itself, performed on lines 68 and 93. -/
def settingsCacheEnabled (s : Settings) : Except PyExn Bool :=
  .error cacheEnabledExn

/-- Everything fixed at process start: the settings, the portfolio data, the
loader's summary strings, the optional model clients (present for all agents
and for the router exactly when `settings.has_google_api`), and the
`json.loads` oracle. -/
structure Env where
  settings : Settings
  portfolio : PortfolioData
  profile_summary : String
  skills_summary : String
  competencies_summary : String
  agent_llm : Option LLMCall
  router_llm : Option LLMCall
  jsonParse : String → Option Json

/-- The mutable cross-request state: the global `query_cache` plus the tick
counter modelling successive `time.time()` readings. -/
structure SysState where
  cache : QueryCache AgentResult
  tick : ℕ

/-- Read `time.time()` as a rational wall-clock value (the tick itself). -/
def pyTime (st : SysState) : ℚ × SysState :=
  ((st.tick : ℚ), { st with tick := st.tick + 1 })

/-- Read `time.time()` as the raw tick, for the cache's timestamps. -/
def pyClock (st : SysState) : ℕ × SysState :=
  (st.tick, { st with tick := st.tick + 1 })

/-! ## `RouterAgent._get_keyword_route` — the keyword classifier -/

/-- One category's keyword lists: "high" phrases score 1.0, "medium" phrases
score 0.5. -/
structure KeywordSet where
  high : List String
  medium : List String
deriving DecidableEq

/-- Profile keywords (`agents.py` lines 749-758). -/
def profile_keywords : KeywordSet :=
  ⟨["about", "who are you", "tell me about yourself", "background", "education"],
   ["profile", "skills", "experience summary"]⟩

/-- Project keywords. -/
def project_keywords : KeywordSet :=
  ⟨["project", "github", "built", "developed", "technical"],
   ["code", "implementation", "portfolio"]⟩

/-- Career keywords. -/
def career_keywords : KeywordSet :=
  ⟨["career advice", "job search", "interview prep"],
   ["career", "advice", "development"]⟩

/-- Demo keywords. -/
def demo_keywords : KeywordSet :=
  ⟨["demo", "live", "show me", "walkthrough"],
   ["interactive", "demonstration"]⟩

/-- Strategic-fit keywords. -/
def strategic_keywords : KeywordSet :=
  ⟨["job description", "requirements", "position", "role requirements",
    "fit analysis", "analyze this job"],
   ["analyze", "match", "qualification", "hiring"]⟩

/-- The category/keyword pairs in the iteration order of the scoring loop
(also the insertion order of the `scores` dict). -/
def keywordTable : List (String × KeywordSet) :=
  [("profile", profile_keywords), ("project", project_keywords),
   ("career", career_keywords), ("demo", demo_keywords),
   ("strategic_fit", strategic_keywords)]

/-- The inner scoring loop: add `multiplier` to the accumulator for every
listed phrase present as a substring of the lowered query (each distinct
phrase counts once, by presence). -/
def scoreWords (query_lower : String) (words : List String) (multiplier : ℚ)
    (acc : ℚ) : ℚ :=
  words.foldl (fun a w => if pyIn w query_lower then a + multiplier else a) acc

/-- One category's total: high phrases at multiplier 1.0 first, then medium
phrases at 0.5, exactly as the `keywords.items()` loop runs. -/
def categoryScore (ks : KeywordSet) (query_lower : String) : ℚ :=
  scoreWords query_lower ks.medium (1/2) (scoreWords query_lower ks.high 1 0)

/-- The scores dict, in insertion order. -/
def scoresList (query : String) : List (String × ℚ) :=
  keywordTable.map (fun p => (p.1, categoryScore p.2 (pyLower query)))

/-- Python `max(scores.items(), key=lambda x: x[1])`: the first maximal item
in iteration order (`max` replaces the current best only on a strictly
greater key). -/
def bestAgent : List (String × ℚ) → String × ℚ
  | [] => ("", 0)
  | x :: xs => xs.foldl (fun acc y => if acc.2 < y.2 then y else acc) x

/-- The classifier's output: a category name and a confidence in [0,1]. -/
structure Route where
  agent : String
  confidence : ℚ

/-- Source `RouterAgent._get_keyword_route`: score every category, take the
best, normalise confidence to `min(score/3, 1)`, and default to `"profile"`
when the best score is 0. -/
def get_keyword_route (query : String) : Route :=
  { agent :=
      if 0 < (bestAgent (scoresList query)).2 then (bestAgent (scoresList query)).1
      else "profile",
    confidence := min ((bestAgent (scoresList query)).2 / 3) 1 }

/-! ### Substring-presence is monotone under appending text -/

theorem isPrefixOf_append_of_isPrefixOf (l m r : List Char)
    (h : l.isPrefixOf m = true) : l.isPrefixOf (m ++ r) = true := by
  induction l generalizing m with
  | nil => simp [List.isPrefixOf]
  | cons c t ih =>
    cases m with
    | nil => simp [List.isPrefixOf] at h
    | cons d u =>
      simp only [List.isPrefixOf, Bool.and_eq_true] at h
      simp only [List.cons_append, List.isPrefixOf, Bool.and_eq_true]
      exact ⟨h.1, ih u h.2⟩

theorem infixOfB_nil_needle (l : List Char) : infixOfB [] l = true := by
  induction l with
  | nil => rfl
  | cons c t ih => simp [infixOfB, List.isPrefixOf]

theorem infixOfB_append (n h r : List Char) (hin : infixOfB n h = true) :
    infixOfB n (h ++ r) = true := by
  induction h with
  | nil =>
    simp only [infixOfB, List.isEmpty_iff] at hin
    subst hin
    exact infixOfB_nil_needle r
  | cons c t ih =>
    simp only [infixOfB, Bool.or_eq_true] at hin
    rw [List.cons_append]
    simp only [infixOfB, Bool.or_eq_true]
    rcases hin with hin | hin
    · exact Or.inl (by
        have := isPrefixOf_append_of_isPrefixOf n (c :: t) r hin
        simpa using this)
    · exact Or.inr (ih hin)

theorem string_mk_append (l m : List Char) :
    (⟨l⟩ : String) ++ (⟨m⟩ : String) = ⟨l ++ m⟩ := by
  apply String.ext
  simp [String.data_append]

theorem pyLower_append (s t : String) :
    pyLower (s ++ t) = pyLower s ++ pyLower t := by
  apply String.ext
  simp [pyLower, String.data_append]

theorem pyIn_append (w q r : String) (h : pyIn w q = true) :
    pyIn w (q ++ r) = true := by
  unfold pyIn at h ⊢
  rw [String.data_append]
  exact infixOfB_append w.data q.data r.data h

theorem scoreWords_mono (ql qr : String) (ws : List String) (m acc acc' : ℚ)
    (hm : 0 ≤ m) (hacc : acc ≤ acc')
    (hcont : ∀ w, pyIn w ql = true → pyIn w qr = true) :
    scoreWords ql ws m acc ≤ scoreWords qr ws m acc' := by
  induction ws generalizing acc acc' with
  | nil => exact hacc
  | cons w t ih =>
    unfold scoreWords at *
    rw [List.foldl_cons, List.foldl_cons]
    apply ih
    by_cases h1 : pyIn w ql = true
    · rw [if_pos h1, if_pos (hcont w h1)]
      linarith
    · rw [if_neg h1]
      by_cases h2 : pyIn w qr = true
      · rw [if_pos h2]; linarith
      · rw [if_neg h2]; exact hacc

/-- C10: appending one of a category's high-weight phrases to the query
never decreases that category's keyword score (presence-based scoring is
monotone under extending the query text). -/
theorem C10_keyword_score_monotone (query : String) (cat : String × KeywordSet)
    (hcat : cat ∈ keywordTable) (p : String) (hp : p ∈ cat.2.high) :
    categoryScore cat.2 (pyLower query) ≤
      categoryScore cat.2 (pyLower (query ++ p)) := by
  have hcont : ∀ w, pyIn w (pyLower query) = true →
      pyIn w (pyLower (query ++ p)) = true := by
    intro w hw
    rw [pyLower_append]
    exact pyIn_append w (pyLower query) (pyLower p) hw
  unfold categoryScore
  apply scoreWords_mono _ _ _ _ _ _ (by norm_num) _ hcont
  exact scoreWords_mono _ _ _ _ _ _ (by norm_num) le_rfl hcont

/-- Witness for C10: the profile category and its high phrase `"about"`,
appended to the query `"hi"`. -/
theorem C10_keyword_score_monotone_witness :
    categoryScore ("profile", profile_keywords).2 (pyLower "hi") ≤
      categoryScore ("profile", profile_keywords).2 (pyLower ("hi" ++ "about")) :=
  C10_keyword_score_monotone "hi" ("profile", profile_keywords) (by decide)
    "about" (by decide)

/-! ## System prompts and messages -/

/-- The ProfileAgent system prompt. -/
def profileSystemPrompt : String :=
  "You are a Profile Agent for an AI portfolio.\n\nWhen answering questions:\n1. Use SPECIFIC EXAMPLES from the context provided (project names, companies, technologies)\n2. When asked about experience/projects, cite actual project titles and proof of skills\n3. Keep responses concise (2-3 sentences) but include concrete examples\n4. If context provides \"relevant_examples\", prioritize mentioning those specific items\n\nBe direct and specific. Focus on what the user asks about."

/-- The ProjectAgent system prompt. -/
def projectSystemPrompt : String :=
  "You are a Project Agent for an AI portfolio.\n\nProvide technical details about projects using data from context.\nBe concise. Focus on what the user asks about - don\u0027t list all projects."

/-- The CareerAgent system prompt (an f-string over the configured owner). -/
def careerSystemPrompt (owner : String) : String :=
  "\nYou are the Career Agent for " ++ owner ++
  "\u0027s AI portfolio.\nYour role is to provide career advice, professional development guidance, and industry insights.\n\nExpertise Areas:\n- AI/ML Career Development\n- Data Science Industry Trends\n- Technical Interview Preparation\n- Professional Networking\n- Skill Development Roadmaps\n\nWhen users ask about career advice, provide:\n1. Practical, actionable guidance\n2. Industry-relevant insights\n3. Personal experience when applicable\n4. Resource recommendations\n\nAlways respond in a supportive, professional tone. Focus on helping users achieve their career goals.\n\nKeep responses encouraging and practical.\n"

/-- The DemoAgent system prompt (an f-string over the configured owner). -/
def demoSystemPrompt (owner : String) : String :=
  "\nYou are the Demo Agent for " ++ owner ++
  "\u0027s AI portfolio.\nYour role is to guide users through interactive project demonstrations and technical walkthroughs.\n\nDemo Capabilities:\n- Live project demonstrations\n- Code walkthroughs\n- Technical explanations\n- Interactive Q&A about implementations\n\nWhen users ask about demos, provide:\n1. Clear instructions for accessing demos\n2. Technical context and background\n3. Key features to explore\n4. Interactive guidance\n\nAlways respond in an engaging, technical tone. Encourage exploration and experimentation.\n\nKeep responses focused on the interactive aspects and user engagement.\n"

/-- The StrategicFitAgent system prompt (JSON template shown to the model). -/
def strategicSystemPrompt : String :=
  "You are a Strategic Fit Analyst for a portfolio.\n\nAnalyze job requirements against candidate qualifications using the portfolio data provided in the context.\n\nReturn structured JSON with this format:\n\x7b\n  \"kanban_data\": \x7b\n    \"technicalSkills\": [\x7b\"id\": \"1\", \"title\": \"[Skill]\", \"description\": \"[Match]\", \"score\": \"Excellent/High/Good\"\x7d],\n    \"relevantExperience\": [\x7b\"id\": \"1\", \"title\": \"[Role]\", \"description\": \"[Details]\", \"score\": \"Excellent/High/Good\"\x7d],\n    \"projectEvidence\": [\x7b\"id\": \"1\", \"title\": \"[Project]\", \"description\": \"[Fit]\", \"score\": \"Excellent/High/Good\"\x7d],\n    \"quantifiableImpact\": [\x7b\"id\": \"1\", \"title\": \"[Metric]\", \"description\": \"[Impact]\", \"score\": \"Excellent/High/Good\"\x7d]\n  \x7d,\n  \"summary_data\": \x7b\n    \"overallMatch\": \"Excellent Fit/Good Fit/Partial Fit\",\n    \"matchPercentage\": 85,\n    \"executiveSummary\": \"[2-3 sentences]\",\n    \"keyStrengths\": [\"str1\", \"str2\"],\n    \"competitiveAdvantages\": [\"adv1\", \"adv2\"],\n    \"interviewHighlights\": [\"q1\", \"q2\"]\n  \x7d,\n  \"match_score\": \"85%\",\n  \"analysis\": \"[Brief text]\"\n\x7d\n\nBe concise. Focus on job-relevant data only."

/-- Each agent's system prompt, as wired by the constructors. -/
def agentSystemPrompt (env : Env) : AgentKind → String
  | .profile => profileSystemPrompt
  | .project => projectSystemPrompt
  | .career => careerSystemPrompt env.settings.portfolio_owner
  | .demo => demoSystemPrompt env.settings.portfolio_owner
  | .strategic_fit => strategicSystemPrompt

/-- Stand-in rendering for `json.dumps(context or ..., indent=2)` inside the
human message; the remote client is an oracle, so only the fact that the
message is a function of the query and context matters. -/
def dumpsCtx (ctx : List (String × String)) : String :=
  "\x7b" ++ pyJoin ", "
    (ctx.map (fun p => "\"" ++ p.1 ++ "\": \"" ++ p.2 ++ "\"")) ++ "\x7d"

/-- The `HumanMessage` content built by `_process_uncached`. -/
def humanMessage (query : String) (ctx : List (String × String)) : String :=
  "User Query: " ++ query ++ "\nContext: " ++ dumpsCtx ctx

/-! ## `PortfolioAgent` base behaviour -/

/-- Source `PortfolioAgent._parse_response`: an empty or blank reply becomes
an apologetic error result; otherwise the trimmed reply is wrapped as a text
result.  (The method's own `try/except` wraps code with no raising
operation.) -/
def baseParseResponse (name response : String) (processing_time : ℚ) :
    AgentResult :=
  if pyStrip response = "" then
    { response := "I apologize, but I couldn\u0027t generate a proper response. Please try rephrasing your question.",
      viewport_content :=
        { vtype := "error", message := some "Empty response from AI",
          agent := some name },
      agent_used := name, processing_time := processing_time }
  else
    { response := pyStrip response,
      viewport_content :=
        { vtype := "text", agent := some name, content := some (pyStrip response) },
      agent_used := name, processing_time := processing_time }

/-! ## `ProfileAgent` -/

/-- Source `ProfileAgent._get_fallback_response`: static content chosen by
keyword sniffing, served with the offline agent identity and processing
time 0. -/
def profileFallback (env : Env) (query : String) : AgentResult :=
  if pyIn "skill" (pyLower query) || pyIn "stack" (pyLower query) ||
      pyIn "technolog" (pyLower query) then
    { response := "Here is an overview of my technical skills:\n\n" ++ env.skills_summary,
      viewport_content :=
        { vtype := "text", agent := some "Profile Agent",
          content := some ("Here is an overview of my technical skills:\n\n" ++ env.skills_summary) },
      agent_used := "Profile Agent (Offline)", processing_time := 0 }
  else
    { response := "I am currently operating in offline mode, but here is my profile summary:\n\n" ++ env.profile_summary,
      viewport_content :=
        { vtype := "text", agent := some "Profile Agent",
          content := some ("I am currently operating in offline mode, but here is my profile summary:\n\n" ++ env.profile_summary) },
      agent_used := "Profile Agent (Offline)", processing_time := 0 }

/-- The text block built for one matching project in the ProfileAgent search. -/
def profileProjectItem (p : Project) : String :=
  "PROJECT: " ++ p.title ++ "\n" ++ "What: " ++ pyTake 120 p.star.task ++ "\n" ++
  "Technologies: " ++ pyJoin ", " (p.technologies.take 8) ++ "\n" ++
  "Impact: " ++ pyTake 100 p.star.result

/-- The text block built for one matching experience entry. -/
def profileExperienceItem (e : Experience) : String :=
  "EXPERIENCE: " ++ e.role ++ " at " ++ e.company ++ "\n" ++
  "Duration: " ++ e.duration ++ "\n" ++ "Achievement: " ++ pyTake 100 e.star.result

/-- The searchable text of a project:
`f"(title) (situation) (task) (joined technologies)".lower()`. -/
def projectSearchText (p : Project) : String :=
  pyLower (p.title ++ " " ++ p.star.situation ++ " " ++ p.star.task ++ " " ++
    pyJoin " " p.technologies)

/-- The searchable text of an experience entry. -/
def experienceSearchText (e : Experience) : String :=
  pyLower (e.company ++ " " ++ e.role ++ " " ++ e.star.result)

/-- Source `ProfileAgent.process` context assembly: always the profile line;
then exactly one of the skills / education / experience-search branches,
keyed on substrings of the lowered query. -/
def profileTargetedContext (env : Env) (query : String) :
    List (String × String) :=
  let ql := pyLower query
  let profile := env.portfolio.profile
  let base : List (String × String) :=
    [("profile",
      profile.name ++ ", " ++ profile.title ++ ". " ++ pyTake 200 profile.summary)]
  if pyIn "skill" ql || pyIn "technolog" ql || pyIn "stack" ql then
    dictInsert base "skills" env.skills_summary
  else if pyIn "education" ql || pyIn "degree" ql then
    dictInsert base "education"
      (env.portfolio.education.degree ++ " from " ++
        env.portfolio.education.university ++ ", GPA: " ++
        env.portfolio.education.gpa)
  else if pyIn "experience" ql || pyIn "work" ql || pyIn "project" ql ||
      pyIn "mlops" ql || pyIn "ml" ql || pyIn "ai" ql then
    let keywords := pySplitWs ql
    let projItems :=
      (env.portfolio.projects.filter
        (fun p => keywords.any (fun kw => pyIn kw (projectSearchText p)))).map
        profileProjectItem
    let expItems :=
      (env.portfolio.experience.filter
        (fun e => keywords.any (fun kw => pyIn kw (experienceSearchText e)))).map
        profileExperienceItem
    let relevant_items := projItems ++ expItems
    if relevant_items.isEmpty then
      dictInsert base "featured_projects"
        (pyJoin "\n\n"
          (((env.portfolio.projects.filter (fun p => p.featured)).take 2).map
            (fun p =>
              p.title ++ ": " ++ pyTake 80 p.star.task ++ "... Technologies: " ++
                pyJoin ", " (p.technologies.take 5))))
    else
      dictInsert base "relevant_examples" (pyJoin "\n\n" (relevant_items.take 4))
  else
    base

/-- Source `ProfileAgent.process` lines 343-344: `full_context = context or
(empty)` then `full_context.update(targeted_context)` — the dict sent on to
the base `process`. -/
def profileFullContext (env : Env) (query : String)
    (ctx : List (String × String)) : List (String × String) :=
  pyUpdate ctx (profileTargetedContext env query)

/-- Source `ProfileAgent._parse_response`: delegate to the base parser, then
swap in the static fallback if the base produced the generic error text
(which the base parser itself never emits — the check can only fire if the
model's own reply contains that sentence). -/
def profileParseResponse (env : Env) (response query : String)
    (processing_time : ℚ) : AgentResult :=
  let parsed := baseParseResponse "Profile Agent" response processing_time
  if pyIn "I encountered an error" parsed.response then profileFallback env query
  else parsed

/-! ## `ProjectAgent` -/

/-- Source `ProjectAgent.process` context assembly: projects whose title
occurs in the lowered query, else up to three featured projects, rendered
into the `"projects"` context entry. -/
def projectContext (env : Env) (query : String)
    (ctx : List (String × String)) : List (String × String) :=
  let mentioned :=
    env.portfolio.projects.filter (fun p => pyIn (pyLower p.title) (pyLower query))
  let relevant :=
    if mentioned.isEmpty then (env.portfolio.projects.filter (fun p => p.featured)).take 3
    else mentioned
  dictInsert ctx "projects"
    (pyJoin "\n\n"
      (relevant.map (fun p =>
        "Project: " ++ p.title ++ "\n" ++ "Technologies: " ++
          pyJoin ", " (p.technologies.take 5) ++ "\n" ++ "Result: " ++
          pyTake 200 p.star.result)))

/-- Source `ProjectAgent._parse_response`: the base result with the viewport
retagged as `project_info` (unconditionally, including on the base parser's
error results; the `except` branch is unreachable). -/
def projectParseResponse (response : String) (processing_time : ℚ) :
    AgentResult :=
  let base := baseParseResponse "Project Agent" response processing_time
  { base with
    viewport_content :=
      { base.viewport_content with
        vtype := "project_info"
        agent := some "Project Agent" } }

/-! ## `StrategicFitAgent` -/

/-- Source `StrategicFitAgent._is_job_analysis_query` (the same keyword list
is inlined again in `_parse_response`). -/
def strategicIsJobAnalysis (query : String) : Bool :=
  (["job description", "requirements", "position", "role", "hiring",
    "job posting", "analyze this", "fit analysis"] : List String).any
    (fun kw => pyIn kw (pyLower query))

/-- Source `StrategicFitAgent._get_relevant_portfolio_data`: profile, skills,
up to three featured projects and truncated competencies. -/
def strategicPortfolioData (env : Env) : List (String × String) :=
  [("profile",
      env.portfolio.profile.name ++ ", " ++ env.portfolio.profile.title ++ ". " ++
        env.portfolio.profile.summary),
   ("skills", env.skills_summary),
   ("featured_projects",
      pyJoin "\n\n"
        (((env.portfolio.projects.filter (fun p => p.featured)).take 3).map
          (fun p =>
            "- " ++ p.title ++ ": " ++ pyTake 150 p.star.result ++
              "... Technologies: " ++ pyJoin ", " (p.technologies.take 5)))),
   ("competencies", pyTake 500 env.competencies_summary)]

/-- Source `StrategicFitAgent.process` context assembly: inject the portfolio
data (with `dict.update`) only for job-analysis queries. -/
def strategicContext (env : Env) (query : String)
    (ctx : List (String × String)) : List (String × String) :=
  if strategicIsJobAnalysis query then pyUpdate ctx (strategicPortfolioData env)
  else ctx

/-- The substring `response[start:end]` with `start = response.find(LBRACE)`
and `end = response.rfind(RBRACE) + 1`, as sliced by the JSON extraction. -/
def extractJsonStr (response : String) : String :=
  let l := response.data
  let start := (l.findIdx? (fun c => c == lbrace)).getD 0
  let stop := ((l.reverse.findIdx? (fun c => c == rbrace)).map
    (fun i => l.length - 1 - i + 1)).getD 0
  ⟨(l.take stop).drop start⟩

/-- The default empty `kanban_data` installed when JSON extraction fails. -/
def defaultKanban : Json :=
  .obj [("technicalSkills", .arr []), ("relevantExperience", .arr []),
        ("projectEvidence", .arr []), ("quantifiableImpact", .arr [])]

/-- The default `summary_data` installed when JSON extraction fails
(`matchPercentage` 0, `"Analysis Failed"`). -/
def defaultSummary (processing_time : ℚ) : Json :=
  .obj [("overallMatch", .str "Analysis Failed"), ("matchPercentage", .num 0),
        ("executiveSummary", .str "Could not complete analysis"),
        ("keyStrengths", .arr []), ("competitiveAdvantages", .arr []),
        ("interviewHighlights", .arr []),
        ("processingTime", .str (toString processing_time ++ "s")),
        ("agentUsed", .str "Strategic Fit Agent")]

/-- The structured fields as installed on the successful JSON-extraction
path, when `json.loads` returned the object `fields` and the logging line
`len(kanban.get("technicalSkills", []))` does not itself raise. -/
def strategicPopulate (base : AgentResult) (fields : List (String × Json)) :
    AgentResult :=
  { base with
    kanban_data := some (jsonObjGet fields "kanban_data" (.obj []))
    summary_data := some (jsonObjGet fields "summary_data" (.obj []))
    match_score := some (jsonObjGet fields "match_score" (.str "0%"))
    viewport_content :=
      { base.viewport_content with
        kanban_data := some (jsonObjGet fields "kanban_data" (.obj []))
        summary_data := some (jsonObjGet fields "summary_data" (.obj [])) } }

/-- The structured fields as installed by the `except` branch of the JSON
extraction (parse failure, non-dict payload, or a raising logging line). -/
def strategicDefault (base : AgentResult) (processing_time : ℚ) : AgentResult :=
  { base with
    kanban_data := some defaultKanban
    summary_data := some (defaultSummary processing_time)
    match_score := some (.str "0%")
    viewport_content :=
      { base.viewport_content with
        kanban_data := some defaultKanban
        summary_data := some (defaultSummary processing_time) } }

/-- Whether the `logger.info` line inside the `try` block,
`len(structured_data.get("kanban_data", ...).get("technicalSkills", []))`,
evaluates without raising: the `kanban_data` value must be a dict, and its
`technicalSkills` value must support `len()` (list, string or dict). -/
def strategicLogLineOk (fields : List (String × Json)) : Bool :=
  match jsonObjGet fields "kanban_data" (.obj []) with
  | .obj kfs =>
      match jsonObjGet kfs "technicalSkills" (.arr []) with
      | .arr _ => true
      | .str _ => true
      | .obj _ => true
      | _ => false
  | _ => false

/-- Source `StrategicFitAgent._parse_response`: base-parse, retag the
viewport; for job-analysis queries try to slice out and parse a JSON object
(only when both braces occur in the reply) and install either the parsed
payload or, if anything in the `try` block raises, the default empty
payload; non-job queries are retagged `strategic_analysis` with no
structured payload at all. -/
def strategicParseResponse (env : Env) (response query : String)
    (processing_time : ℚ) : AgentResult :=
  let base0 := baseParseResponse "Strategic Fit Agent" response processing_time
  if strategicIsJobAnalysis query then
    let base :=
      { base0 with
        viewport_content :=
          { base0.viewport_content with vtype := "strategic_fit_analysis" } }
    let result :=
      if pyIn "\x7b" response && pyIn "\x7d" response then
        match env.jsonParse (extractJsonStr response) with
        | some (.obj fields) =>
            if strategicLogLineOk fields then strategicPopulate base fields
            else strategicDefault base processing_time
        | some _ => strategicDefault base processing_time
        | none => strategicDefault base processing_time
      else base
    { result with
      viewport_content :=
        { result.viewport_content with agent := some "Strategic Fit Agent" } }
  else
    { base0 with
      viewport_content :=
        { base0.viewport_content with
          vtype := "strategic_analysis"
          agent := some "Strategic Fit Agent" } }

/-- The `_parse_response` override each agent actually runs (career and demo
use the base implementation). -/
def parseDispatch (k : AgentKind) (env : Env) (response query : String)
    (processing_time : ℚ) : AgentResult :=
  match k with
  | .profile => profileParseResponse env response query processing_time
  | .project => projectParseResponse response processing_time
  | .career => baseParseResponse "Career Agent" response processing_time
  | .demo => baseParseResponse "Demo Agent" response processing_time
  | .strategic_fit => strategicParseResponse env response query processing_time

/-! ## `PortfolioAgent._process_uncached` and `process` -/

/-- Source `PortfolioAgent._process_uncached`: without a client, the static
configuration-required result (note: its viewport type is `"error"`); with a
client, one oracle call whose reply goes to the agent's `_parse_response`,
whose raised exceptions are classified into the rate-limit result (when
`str(e)` carries a 429/quota/rate-limit marker) or the generic error
result. -/
def processUncached (k : AgentKind) (env : Env) (st : SysState)
    (query : String) (ctx : List (String × String)) :
    AgentResult × SysState :=
  let (start_time, st1) := pyTime st
  match env.agent_llm with
  | none =>
      let (t1, st2) := pyTime st1
      ({ response := "Google API key not configured. Please set GOOGLE_API_KEY environment variable.",
         viewport_content := { vtype := "error", message := some "Configuration required" },
         agent_used := agentName k, processing_time := t1 - start_time }, st2)
  | some llm =>
      match llm (agentSystemPrompt env k) (humanMessage query ctx) with
      | .ok content =>
          let (t1, st2) := pyTime st1
          (parseDispatch k env content query (t1 - start_time), st2)
      | .error e =>
          let (t1, st2) := pyTime st1
          if pyIn "429" e.msg || pyIn "quota" (pyLower e.msg) ||
              pyIn "rate limit" (pyLower e.msg) then
            ({ response := "I\u0027m currently experiencing high demand. Please try again in a few moments, or ask a simpler question.",
               viewport_content :=
                 { vtype := "error",
                   message := some "Rate limit reached. Please wait before retrying.",
                   retry_after := some 60 },
               agent_used := agentName k, processing_time := t1 - start_time,
               error_type := some "rate_limit" }, st2)
          else
            ({ response := "I encountered an error while processing your request. Please try again or contact support if the issue persists.",
               viewport_content :=
                 { vtype := "error",
                   message := some ("Processing error: " ++ e.msg),
                   agent := some (agentName k) },
               agent_used := agentName k, processing_time := t1 - start_time,
               error := some e.msg }, st2)

/-- The cache-lookup block at the top of `PortfolioAgent.process` (lines
67-87): with an empty context it first evaluates `settings.cache_enabled`,
so it always raises `AttributeError` there; the hit path (marking the result
`cached` with processing time forced to 0) is embedded in full although it
is unreachable.  Analytics hit/miss logging swallows its own errors and is
omitted. -/
def processCacheLookup (k : AgentKind) (env : Env) (st : SysState)
    (query : String) (ctx : List (String × String)) :
    Except PyExn (Option AgentResult × SysState) :=
  if ctx.isEmpty then
    match settingsCacheEnabled env.settings with
    | .error e => .error e
    | .ok ce =>
        if ce then
          let (now, st1) := pyClock st
          match st1.cache.get now query (agentName k) with
          | (some cached, c1) =>
              .ok (some { cached with cached := some true, processing_time := 0 },
                   { st1 with cache := c1 })
          | (none, c1) => .ok (none, { st1 with cache := c1 })
        else .ok (none, st)
  else .ok (none, st)

/-- The cache-store guard after `_process_uncached` (lines 92-94):
`if not context and settings.cache_enabled and "error" not in result` — the
same missing attribute, evaluated only when the context is empty. -/
def processCacheStore (k : AgentKind) (env : Env) (st : SysState)
    (query : String) (ctx : List (String × String)) (result : AgentResult) :
    Except PyExn SysState :=
  if ctx.isEmpty then
    match settingsCacheEnabled env.settings with
    | .error e => .error e
    | .ok ce =>
        if ce && result.error.isNone then
          let (now, st1) := pyClock st
          match st1.cache.set now query (agentName k) result with
          | .error m => .error (.pyError m)
          | .ok c2 => .ok { st1 with cache := c2 }
        else .ok st
  else .ok st

/-- Source `PortfolioAgent.process`: cache lookup, uncached processing,
cache store.  Analytics logging (lines 96-113) swallows its own exceptions
and never changes the result, so it is omitted.  On a raise the enclosing
caller observes the pre-call state; no raising point mutates the shared
cache first. -/
def basicProcess (k : AgentKind) (env : Env) (st : SysState) (query : String)
    (ctx : List (String × String)) : Except PyExn (AgentResult × SysState) :=
  match processCacheLookup k env st query ctx with
  | .error e => .error e
  | .ok (some cached, st1) => .ok (cached, st1)
  | .ok (none, st1) =>
      let (result, st2) := processUncached k env st1 query ctx
      match processCacheStore k env st2 query ctx result with
      | .error e => .error e
      | .ok st3 => .ok (result, st3)

/-- Source `ProfileAgent.process`: assemble the targeted context, merge it
over the caller's context, run the base `process`; any exception from the
whole block is downgraded to the static fallback response. -/
def profileProcess (env : Env) (st : SysState) (query : String)
    (ctx : List (String × String)) : AgentResult × SysState :=
  match basicProcess .profile env st query (profileFullContext env query ctx) with
  | .ok r => r
  | .error _ => (profileFallback env query, st)

/-- Source `ProjectAgent.process`: the base `process` on the
projects-augmented context (no exception handling of its own). -/
def projectProcess (env : Env) (st : SysState) (query : String)
    (ctx : List (String × String)) : Except PyExn (AgentResult × SysState) :=
  basicProcess .project env st query (projectContext env query ctx)

/-- Source `StrategicFitAgent.process`: the base `process` on the
conditionally augmented context. -/
def strategicProcess (env : Env) (st : SysState) (query : String)
    (ctx : List (String × String)) : Except PyExn (AgentResult × SysState) :=
  basicProcess .strategic_fit env st query (strategicContext env query ctx)

/-- Dispatch of `agent.process` over the registry (career and demo run the
base `process` unchanged). -/
def agentProcess (k : AgentKind) (env : Env) (st : SysState) (query : String)
    (ctx : List (String × String)) : Except PyExn (AgentResult × SysState) :=
  match k with
  | .profile => .ok (profileProcess env st query ctx)
  | .project => projectProcess env st query ctx
  | .career => basicProcess .career env st query ctx
  | .demo => basicProcess .demo env st query ctx
  | .strategic_fit => strategicProcess env st query ctx

/-! ## `RouterAgent` -/

/-- The registry lookup `self.agents.get(agent_name)` over the five agents
built in `RouterAgent.__init__`. -/
def agentOf : String → Option AgentKind
  | "profile" => some .profile
  | "project" => some .project
  | "career" => some .career
  | "demo" => some .demo
  | "strategic_fit" => some .strategic_fit
  | _ => none

/-- The routing prompt f-string sent on the LLM verification tier. -/
def routingPrompt (query : String) : String :=
  "\n            Route the following user query to the most appropriate agent:\n            Query: \"" ++ query ++
  "\"\n            \n            Available agents:\n            - profile: For questions about personal background, education, skills, \"about me\"\n            - project: For questions about projects, technical implementations, code\n            - career: For career advice, professional development, industry insights\n            - demo: For interactive demonstrations, live projects, walkthroughs\n            - strategic_fit: For job analysis, requirements matching, strategic fit assessment\n            \n            Respond with only the agent name (profile, project, career, demo, or strategic_fit).\n            "

/-- Source `RouterAgent.route_query`: fast path on keyword confidence above
0.8; otherwise, if a router client exists, one verification call whose
normalised reply is used only when it names a registered agent; every
failure falls back to the keyword route. -/
def route_query (env : Env) (query : String) : String :=
  let route := get_keyword_route query
  if route.confidence > 8/10 then route.agent
  else
    match env.router_llm with
    | none => route.agent
    | some llm =>
        match llm (routingPrompt query) query with
        | .ok content =>
            if (agentOf (pyLower (pyStrip content))).isSome then
              pyLower (pyStrip content)
            else route.agent
        | .error _ => route.agent

/-- The body of the `try` block in `RouterAgent.process_query`: route,
dispatch to the registered agent (the registry miss branch returns the
`router_error` result), attach `routed_to` and total elapsed time. -/
def processQueryInner (env : Env) (st : SysState) (query : String)
    (ctx : List (String × String)) (start_time : ℚ) :
    Except PyExn (AgentResult × SysState) :=
  match agentOf (route_query env query) with
  | none =>
      let (t1, st1) := pyTime st
      .ok ({ response := "I apologize, but I couldn\u0027t determine the best way to handle your request. Please try rephrasing your question.",
             viewport_content := { vtype := "error", message := some "Routing error" },
             agent_used := "router_error", processing_time := t1 - start_time },
           st1)
  | some k =>
      match agentProcess k env st query ctx with
      | .error e => .error e
      | .ok (result, st1) =>
          let (t1, st2) := pyTime st1
          .ok ({ result with
                 routed_to := some (route_query env query)
                 total_processing_time := some (t1 - start_time) }, st2)

/-- Source `RouterAgent.process_query`: any uncaught exception from routing
or handler processing is converted at this boundary into the generic error
result with `agent_used = "error"` and the exception text as the
viewport message. -/
def process_query (env : Env) (st : SysState) (query : String)
    (ctx : List (String × String)) : AgentResult × SysState :=
  let (start_time, st0) := pyTime st
  match processQueryInner env st0 query ctx start_time with
  | .ok r => r
  | .error e =>
      let (t1, st1) := pyTime st0
      ({ response := "I encountered an error while processing your request. Please try again.",
         viewport_content := { vtype := "error", message := some e.msg },
         agent_used := "error", processing_time := t1 - start_time }, st1)

/-! ## Context-merge precedence (C8) -/

theorem pyUpdate_lookup_notin {α : Type} :
    ∀ (e d : List (String × α)) (k : String),
    k ∉ dictKeys e → dictLookup (pyUpdate d e) k = dictLookup d k := by
  intro e
  induction e with
  | nil => intro d k _; rfl
  | cons p t ih =>
    intro d k hk
    simp only [dictKeys, List.map_cons, List.mem_cons] at hk
    push_neg at hk
    unfold pyUpdate at ih ⊢
    rw [List.foldl_cons]
    rw [ih (dictInsert d p.1 p.2) k (by simpa [dictKeys] using hk.2)]
    exact dictLookup_dictInsert_ne d p.1 k p.2 hk.1

theorem pyUpdate_lookup_right {α : Type} :
    ∀ (e d : List (String × α)) (k : String) (v : α),
    (dictKeys e).Nodup → dictLookup e k = some v →
    dictLookup (pyUpdate d e) k = some v := by
  intro e
  induction e with
  | nil => intro d k v _ h; exact absurd h (by simp [dictLookup_nil])
  | cons p t ih =>
    intro d k v hnd hl
    simp only [dictKeys, List.map_cons, List.nodup_cons] at hnd
    rw [dictLookup_cons] at hl
    unfold pyUpdate at ih ⊢
    rw [List.foldl_cons]
    by_cases hp : p.1 == k
    · rw [if_pos hp] at hl
      have hpk : p.1 = k := by simpa using hp
      have hknot : k ∉ dictKeys t := by
        rw [← hpk]
        simpa [dictKeys] using hnd.1
      rw [show (List.foldl (fun acc kv => dictInsert acc kv.1 kv.2)
            (dictInsert d p.1 p.2) t) = pyUpdate (dictInsert d p.1 p.2) t from rfl,
          pyUpdate_lookup_notin t _ k hknot, hpk,
          dictLookup_dictInsert_self]
      exact hl.symm ▸ rfl
    · rw [if_neg (by simpa using hp)] at hl
      exact ih (dictInsert d p.1 p.2) k v hnd.2 hl

theorem nodup_keys_profile_insert (s v kname : String)
    (h : kname ≠ "profile") :
    (dictKeys (dictInsert [("profile", s)] kname v)).Nodup := by
  rw [dictInsert_of_fresh _ _ _ (by simpa [dictKeys] using h)]
  simp [dictKeys, List.nodup_cons]
  exact fun hh => h hh.symm

/-- The ProfileAgent's assembled context never carries duplicate keys: it is
the profile line plus at most one category-specific entry with a distinct
key. -/
theorem profileTargetedContext_keys_nodup (env : Env) (query : String) :
    (dictKeys (profileTargetedContext env query)).Nodup := by
  dsimp only [profileTargetedContext]
  split
  · exact nodup_keys_profile_insert _ _ _ (by decide)
  · split
    · exact nodup_keys_profile_insert _ _ _ (by decide)
    · split
      · split
        · exact nodup_keys_profile_insert _ _ _ (by decide)
        · exact nodup_keys_profile_insert _ _ _ (by decide)
      · simp [dictKeys]

/-- The StrategicFitAgent's assembled portfolio data carries four pairwise
distinct keys. -/
theorem strategicPortfolioData_keys_nodup (env : Env) :
    (dictKeys (strategicPortfolioData env)).Nodup := by
  dsimp only [strategicPortfolioData, dictKeys, List.map]
  decide

/-- C8 (amended): in both handlers that merge an assembled context over the
caller-supplied one with `full_context.update(...)` — ProfileAgent, and
StrategicFitAgent on job-analysis queries — the HANDLER-assembled value takes
precedence on every key collision: every key bound in the handler's assembled
mapping keeps the handler's value in the merged mapping sent to the remote
model. -/
theorem C8_merge_handler_precedence (env : Env) (query : String)
    (ctx : List (String × String)) (k v : String) :
    (dictLookup (profileTargetedContext env query) k = some v →
      dictLookup (profileFullContext env query ctx) k = some v) ∧
    (strategicIsJobAnalysis query = true →
      dictLookup (strategicPortfolioData env) k = some v →
      dictLookup (strategicContext env query ctx) k = some v) := by
  constructor
  · intro hk
    exact pyUpdate_lookup_right (profileTargetedContext env query) ctx k v
      (profileTargetedContext_keys_nodup env query) hk
  · intro hjob hk
    unfold strategicContext
    rw [if_pos hjob]
    exact pyUpdate_lookup_right (strategicPortfolioData env) ctx k v
      (strategicPortfolioData_keys_nodup env) hk

/-! ### A concrete environment for the closed evaluations -/

/-- A small concrete portfolio. -/
def demoPortfolio : PortfolioData :=
  { profile := ⟨"Jane Doe", "Engineer", "Builds things."⟩,
    education := ⟨"MS", "University", "4.0"⟩,
    projects := [], experience := [] }

/-- A concrete `Settings` value (the field values are the defaults of
`config.py`; only the absence of a `cache_enabled` field matters). -/
def demoSettings : Settings :=
  ⟨"", "gemini-2.0-flash", [], true, "0.0.0.0", 8000, 10485760, 30, 100, 60,
   "Prathamesh Pravin More", "AI/ML Engineer & Data Scientist", "INFO",
   "fmt", true, 10485760, 30⟩

/-- A concrete environment with no model clients configured. -/
def demoEnvOffline : Env :=
  { settings := demoSettings, portfolio := demoPortfolio,
    profile_summary := "PS", skills_summary := "SS",
    competencies_summary := "CS", agent_llm := none, router_llm := none,
    jsonParse := fun _ => none }

/-- Witness for C8 (amended): on the job-analysis query `"fit analysis"` the
always-present `"profile"` key keeps the handler-assembled value in BOTH
handlers' merged contexts (the two assembled values coincide on this short
profile). -/
theorem C8_merge_handler_precedence_witness :
    dictLookup (profileFullContext demoEnvOffline "fit analysis"
        [("profile", "CALLER")]) "profile" =
      some "Jane Doe, Engineer. Builds things." ∧
    dictLookup (strategicContext demoEnvOffline "fit analysis"
        [("profile", "CALLER")]) "profile" =
      some "Jane Doe, Engineer. Builds things." :=
  ⟨(C8_merge_handler_precedence demoEnvOffline "fit analysis"
      [("profile", "CALLER")] "profile"
      "Jane Doe, Engineer. Builds things.").1 rfl,
   (C8_merge_handler_precedence demoEnvOffline "fit analysis"
      [("profile", "CALLER")] "profile"
      "Jane Doe, Engineer. Builds things.").2 rfl rfl⟩

/-- C8 counterexample to the claim as stated: the caller supplies
`"profile"`, each handler also assembles `"profile"`, and in both the
ProfileAgent's and the StrategicFitAgent's merged context the handler's
value survives, not the caller's — `dict.update(assembled)` overwrites the
caller's entries, the opposite of the claimed precedence. -/
theorem C8_counterexample_caller_value_lost :
    (dictLookup (profileFullContext demoEnvOffline "hi" [("profile", "CALLER")])
      "profile" = some "Jane Doe, Engineer. Builds things." ∧
    dictLookup (profileFullContext demoEnvOffline "hi" [("profile", "CALLER")])
      "profile" ≠ some "CALLER") ∧
    (dictLookup (strategicContext demoEnvOffline "fit analysis"
        [("profile", "CALLER")]) "profile" =
      some "Jane Doe, Engineer. Builds things." ∧
    dictLookup (strategicContext demoEnvOffline "fit analysis"
        [("profile", "CALLER")]) "profile" ≠ some "CALLER") :=
  ⟨⟨rfl, by decide⟩, ⟨rfl, by decide⟩⟩

/-! ## Degraded mode (C2) -/

/-- A concrete starting state: empty 100-slot cache, tick 0. -/
def demoState : SysState := ⟨QueryCache.empty AgentResult 100 3600, 0⟩

/-- C2 (amended): with no remote client configured (`llm is None`), every
handler's uncached processing returns the static configuration-required
result — whose viewport type IS `"error"` with message
`"Configuration required"`, whose agent identity is the handler's plain name
(no offline suffix), and whose processing time is the elapsed clock
difference — not a non-error degraded-mode result and not processing time 0
by construction.  (The `ProfileAgent` offline fallback is reachable only
when its context assembly raises, not on this path.) -/
theorem C2_no_client_yields_config_error_result (k : AgentKind) (env : Env)
    (st : SysState) (query : String) (ctx : List (String × String))
    (hllm : env.agent_llm = none) :
    (processUncached k env st query ctx).1 =
      { response := "Google API key not configured. Please set GOOGLE_API_KEY environment variable.",
        viewport_content :=
          { vtype := "error", message := some "Configuration required" },
        agent_used := agentName k,
        processing_time := ((st.tick + 1 : ℕ) : ℚ) - ((st.tick : ℕ) : ℚ) } := by
  simp only [processUncached, hllm, pyTime]

/-- Witness for C2 (amended) at the career handler with query `"hello"`. -/
theorem C2_no_client_yields_config_error_result_witness :
    (processUncached .career demoEnvOffline demoState "hello" []).1 =
      { response := "Google API key not configured. Please set GOOGLE_API_KEY environment variable.",
        viewport_content :=
          { vtype := "error", message := some "Configuration required" },
        agent_used := agentName .career,
        processing_time :=
          ((demoState.tick + 1 : ℕ) : ℚ) - ((demoState.tick : ℕ) : ℚ) } :=
  C2_no_client_yields_config_error_result .career demoEnvOffline demoState
    "hello" [] rfl

/-- C2 counterexample to the claim as stated: with no client the career
handler's result for `"hello"` has viewport type `"error"` — an error-shaped
result, where the claim requires a non-error one. -/
theorem C2_counterexample_offline_result_is_error :
    ((processUncached .career demoEnvOffline demoState "hello" []).1).viewport_content.vtype
      = "error" := rfl

/-! ## Malformed structured reply (C9) -/

/-- Field projection on a parsed JSON object (used to state the
`matchPercentage` fact). -/
def jsonGetField (j : Json) (k : String) : Json :=
  match j with
  | .obj fs => jsonObjGet fs k .null
  | _ => .null

/-- C9 (amended): for a job-analysis query whose remote reply contains `LBRACE`
and `RBRACE` but whose extracted slice does not parse as JSON, the
strategic-fit parse installs the empty default payload — all four category
lists empty, `matchPercentage` 0, match score `"0%"` — instead of raising.
(A reply with no braces at all instead omits the structured payload keys
entirely: see the counterexample.) -/
theorem C9_malformed_reply_default_payload (env : Env)
    (response query : String) (pt : ℚ)
    (hjob : strategicIsJobAnalysis query = true)
    (hlb : pyIn "\x7b" response = true) (hrb : pyIn "\x7d" response = true)
    (hparse : env.jsonParse (extractJsonStr response) = none) :
    (strategicParseResponse env response query pt).kanban_data =
      some (Json.obj [("technicalSkills", .arr []),
        ("relevantExperience", .arr []), ("projectEvidence", .arr []),
        ("quantifiableImpact", .arr [])]) ∧
    (strategicParseResponse env response query pt).summary_data =
      some (defaultSummary pt) ∧
    jsonGetField (defaultSummary pt) "matchPercentage" = .num 0 ∧
    (strategicParseResponse env response query pt).match_score =
      some (.str "0%") := by
  simp only [strategicParseResponse, hjob, if_true, hlb, hrb, Bool.and_self,
    hparse, strategicDefault, defaultKanban]
  exact ⟨trivial, trivial, rfl, trivial⟩

/-- Witness for C9 (amended): the job-analysis query `"fit analysis"` with
the unparsable braced reply. -/
theorem C9_malformed_reply_default_payload_witness :
    (strategicParseResponse demoEnvOffline "\x7bnot json\x7d" "fit analysis" 0).kanban_data =
      some (Json.obj [("technicalSkills", .arr []),
        ("relevantExperience", .arr []), ("projectEvidence", .arr []),
        ("quantifiableImpact", .arr [])]) ∧
    (strategicParseResponse demoEnvOffline "\x7bnot json\x7d" "fit analysis" 0).summary_data =
      some (defaultSummary 0) ∧
    jsonGetField (defaultSummary 0) "matchPercentage" = .num 0 ∧
    (strategicParseResponse demoEnvOffline "\x7bnot json\x7d" "fit analysis" 0).match_score =
      some (.str "0%") :=
  C9_malformed_reply_default_payload demoEnvOffline "\x7bnot json\x7d"
    "fit analysis" 0 rfl rfl rfl rfl

/-- C9 counterexample to the claim as stated (which covers every reply with
no parseable JSON object): a job-analysis reply containing no braces at all
returns a result with NO structured payload — `kanban_data` is absent, not
empty-but-well-formed. -/
theorem C9_counterexample_braceless_reply_omits_payload :
    (strategicParseResponse demoEnvOffline "I cannot analyze this"
        "fit analysis please" 0).kanban_data = none ∧
    strategicIsJobAnalysis "fit analysis please" = true := ⟨rfl, rfl⟩

/-! ## The missing `cache_enabled` field (C4) -/

/-- With an empty context the base `process` always raises the
`cache_enabled` AttributeError at the cache guard, before any cache access
or model call. -/
theorem basicProcess_empty_ctx (k : AgentKind) (env : Env) (st : SysState)
    (query : String) :
    basicProcess k env st query [] = .error cacheEnabledExn := rfl

/-- C4: whenever the router resolves a query to the career or demo handler
and the caller-supplied context is empty, the handler's `process` raises
`AttributeError` on `settings.cache_enabled` (whatever the state, so before
any remote call), and `process_query` returns the router-boundary error
result with `agent_used = "error"` carrying that exception's text; the
returned result is unchanged under any replacement of the handlers' remote
client, confirming the model is never consulted. -/
theorem C4_career_demo_empty_context_error (env : Env) (st : SysState)
    (query : String)
    (hroute : route_query env query = "career" ∨
      route_query env query = "demo") :
    (∀ st' : SysState,
        agentProcess .career env st' query [] = .error cacheEnabledExn ∧
        agentProcess .demo env st' query [] = .error cacheEnabledExn) ∧
    (process_query env st query []).1 =
      { response := "I encountered an error while processing your request. Please try again.",
        viewport_content :=
          { vtype := "error", message := some cacheEnabledExn.msg },
        agent_used := "error",
        processing_time := ((st.tick + 1 : ℕ) : ℚ) - ((st.tick : ℕ) : ℚ) } ∧
    ∀ llm2 : Option LLMCall,
      (process_query { env with agent_llm := llm2 } st query []).1 =
        (process_query env st query []).1 := by
  have hmain : ∀ e2 : Env,
      route_query e2 query = "career" ∨ route_query e2 query = "demo" →
      (process_query e2 st query []).1 =
      { response := "I encountered an error while processing your request. Please try again.",
        viewport_content :=
          { vtype := "error", message := some cacheEnabledExn.msg },
        agent_used := "error",
        processing_time := ((st.tick + 1 : ℕ) : ℚ) - ((st.tick : ℕ) : ℚ) } := by
    intro e2 h2
    unfold process_query
    have hinner : processQueryInner e2 { st with tick := st.tick + 1 } query []
        ((st.tick : ℕ) : ℚ) = .error cacheEnabledExn := by
      unfold processQueryInner
      rcases h2 with h2 | h2 <;> rw [h2] <;> rfl
    simp only [pyTime]
    rw [hinner]
  refine ⟨fun st' => ⟨rfl, rfl⟩, hmain env hroute, ?_⟩
  intro llm2
  have hr2 : route_query { env with agent_llm := llm2 } query =
      route_query env query := rfl
  rw [hmain { env with agent_llm := llm2 } (by rw [hr2]; exact hroute),
    hmain env hroute]

/-- Witness for C4: the query `"career advice job search interview prep"`
keyword-routes to the career handler with confidence 1. -/
theorem C4_career_demo_empty_context_error_witness :
    (∀ st' : SysState,
        agentProcess .career demoEnvOffline st'
            "career advice job search interview prep" [] =
          .error cacheEnabledExn ∧
        agentProcess .demo demoEnvOffline st'
            "career advice job search interview prep" [] =
          .error cacheEnabledExn) ∧
    (process_query demoEnvOffline demoState
        "career advice job search interview prep" []).1 =
      { response := "I encountered an error while processing your request. Please try again.",
        viewport_content :=
          { vtype := "error", message := some cacheEnabledExn.msg },
        agent_used := "error",
        processing_time :=
          ((demoState.tick + 1 : ℕ) : ℚ) - ((demoState.tick : ℕ) : ℚ) } ∧
    ∀ llm2 : Option LLMCall,
      (process_query { demoEnvOffline with agent_llm := llm2 } demoState
          "career advice job search interview prep" []).1 =
        (process_query demoEnvOffline demoState
            "career advice job search interview prep" []).1 :=
  C4_career_demo_empty_context_error demoEnvOffline demoState
    "career advice job search interview prep"
    (Or.inl (by
      norm_num +decide [route_query, get_keyword_route, scoresList,
        keywordTable, categoryScore, scoreWords, bestAgent, profile_keywords,
        project_keywords, career_keywords, demo_keywords, strategic_keywords,
        List.foldl]))

/-! ## Router totality and the error boundary (C1) -/

/-- Well-formedness of a structured result: non-empty response text, agent
identity, and viewport type tag. -/
def AgentResult.wellFormed (r : AgentResult) : Prop :=
  r.response ≠ "" ∧ r.agent_used ≠ "" ∧ r.viewport_content.vtype ≠ ""

theorem append_left_ne_empty (a b : String) (h : a ≠ "") : a ++ b ≠ "" := by
  intro hab
  apply h
  apply String.ext
  have hd := congrArg String.data hab
  rw [String.data_append] at hd
  have : a.data = [] ∧ b.data = [] := List.append_eq_nil.1 hd
  exact this.1

theorem agentName_ne_empty (k : AgentKind) : agentName k ≠ "" := by
  cases k <;> decide

theorem baseParseResponse_wf (name response : String) (pt : ℚ)
    (hname : name ≠ "") : (baseParseResponse name response pt).wellFormed := by
  unfold baseParseResponse AgentResult.wellFormed
  by_cases h : pyStrip response = ""
  · rw [if_pos h]
    dsimp only
    exact ⟨by decide, hname, by decide⟩
  · rw [if_neg h]
    dsimp only
    exact ⟨h, hname, by decide⟩

theorem profileFallback_wf (env : Env) (query : String) :
    (profileFallback env query).wellFormed := by
  unfold profileFallback AgentResult.wellFormed
  split
  · dsimp only
    exact ⟨append_left_ne_empty _ _ (by decide), by decide, by decide⟩
  · dsimp only
    exact ⟨append_left_ne_empty _ _ (by decide), by decide, by decide⟩

theorem profileParseResponse_wf (env : Env) (response query : String) (pt : ℚ) :
    (profileParseResponse env response query pt).wellFormed := by
  dsimp only [profileParseResponse]
  split
  · exact profileFallback_wf env query
  · exact baseParseResponse_wf _ _ _ (by decide)

theorem projectParseResponse_wf (response : String) (pt : ℚ) :
    (projectParseResponse response pt).wellFormed := by
  have hb := baseParseResponse_wf "Project Agent" response pt (by decide)
  unfold AgentResult.wellFormed at hb
  dsimp only [projectParseResponse]
  unfold AgentResult.wellFormed
  dsimp only
  exact ⟨hb.1, hb.2.1, by decide⟩

theorem strategicParseResponse_wf (env : Env) (response query : String)
    (pt : ℚ) : (strategicParseResponse env response query pt).wellFormed := by
  have hb := baseParseResponse_wf "Strategic Fit Agent" response pt (by decide)
  unfold AgentResult.wellFormed at hb
  dsimp only [strategicParseResponse]
  split
  · -- job-analysis branch: the viewport type is "strategic_fit_analysis"
    -- in every sub-branch, and the response text is the base parser's
    unfold AgentResult.wellFormed
    split
    · split
      · split
        · dsimp only [strategicPopulate]
          exact ⟨hb.1, hb.2.1, by decide⟩
        · dsimp only [strategicDefault]
          exact ⟨hb.1, hb.2.1, by decide⟩
      · dsimp only [strategicDefault]
        exact ⟨hb.1, hb.2.1, by decide⟩
      · dsimp only [strategicDefault]
        exact ⟨hb.1, hb.2.1, by decide⟩
    · dsimp only
      exact ⟨hb.1, hb.2.1, by decide⟩
  · unfold AgentResult.wellFormed
    dsimp only
    exact ⟨hb.1, hb.2.1, by decide⟩

theorem parseDispatch_wf (k : AgentKind) (env : Env) (response query : String)
    (pt : ℚ) : (parseDispatch k env response query pt).wellFormed := by
  cases k with
  | profile => exact profileParseResponse_wf env response query pt
  | project => exact projectParseResponse_wf response pt
  | career => exact baseParseResponse_wf _ _ _ (by decide)
  | demo => exact baseParseResponse_wf _ _ _ (by decide)
  | strategic_fit => exact strategicParseResponse_wf env response query pt

theorem processUncached_wf (k : AgentKind) (env : Env) (st : SysState)
    (query : String) (ctx : List (String × String)) :
    ((processUncached k env st query ctx).1).wellFormed := by
  unfold processUncached AgentResult.wellFormed
  cases env.agent_llm with
  | none =>
      dsimp only
      exact ⟨by decide, agentName_ne_empty k, by decide⟩
  | some llm =>
      dsimp only
      cases llm (agentSystemPrompt env k) (humanMessage query ctx) with
      | ok content => exact parseDispatch_wf k env content query _
      | error e =>
          dsimp only
          split
          · dsimp only
            exact ⟨by decide, agentName_ne_empty k, by decide⟩
          · dsimp only
            exact ⟨by decide, agentName_ne_empty k, by decide⟩

theorem dictInsert_ne_nil {α : Type} (d : List (String × α)) (k : String)
    (v : α) : dictInsert d k v ≠ [] := by
  unfold dictInsert
  split
  · intro h
    have := congrArg List.length h
    rw [List.length_map] at this
    rename_i hany
    cases d with
    | nil => simp at hany
    | cons p t => simp at this
  · intro h
    have := congrArg List.length h
    rw [List.length_append] at this
    simp at this

theorem pyUpdate_ne_nil {α : Type} :
    ∀ (e d : List (String × α)), d ≠ [] ∨ e ≠ [] → pyUpdate d e ≠ [] := by
  intro e
  induction e with
  | nil =>
    intro d hd
    rcases hd with hd | hd
    · exact hd
    · exact absurd rfl hd
  | cons p t ih =>
    intro d _
    unfold pyUpdate at ih ⊢
    rw [List.foldl_cons]
    exact ih (dictInsert d p.1 p.2) (Or.inl (dictInsert_ne_nil d p.1 p.2))

theorem profileTargetedContext_ne_nil (env : Env) (query : String) :
    profileTargetedContext env query ≠ [] := by
  dsimp only [profileTargetedContext]
  split
  · exact dictInsert_ne_nil _ _ _
  · split
    · exact dictInsert_ne_nil _ _ _
    · split
      · split
        · exact dictInsert_ne_nil _ _ _
        · exact dictInsert_ne_nil _ _ _
      · simp

theorem profileFullContext_ne_nil (env : Env) (query : String)
    (ctx : List (String × String)) : profileFullContext env query ctx ≠ [] :=
  pyUpdate_ne_nil _ _ (Or.inr (profileTargetedContext_ne_nil env query))

theorem isEmpty_false_of_ne_nil {α : Type} {l : List α} (h : l ≠ []) :
    l.isEmpty = false := by
  cases l with
  | nil => exact absurd rfl h
  | cons a t => rfl

theorem basicProcess_nonempty_ctx (k : AgentKind) (env : Env) (st : SysState)
    (query : String) (ctx : List (String × String)) (h : ctx ≠ []) :
    basicProcess k env st query ctx =
      .ok (processUncached k env st query ctx) := by
  have hb := isEmpty_false_of_ne_nil h
  simp only [basicProcess, processCacheLookup, processCacheStore, hb,
    Bool.false_eq_true, if_false]

theorem projectContext_ne_nil (env : Env) (query : String)
    (ctx : List (String × String)) : projectContext env query ctx ≠ [] := by
  dsimp only [projectContext]
  exact dictInsert_ne_nil _ _ _

theorem agentProcess_ok_wf (k : AgentKind) (env : Env) (st : SysState)
    (query : String) (ctx : List (String × String)) (r : AgentResult)
    (st' : SysState) (h : agentProcess k env st query ctx = .ok (r, st')) :
    r.wellFormed := by
  cases k with
  | profile =>
      have h1 : (Except.ok (profileProcess env st query ctx) :
          Except PyExn (AgentResult × SysState)) = .ok (r, st') := h
      simp only [Except.ok.injEq] at h1
      have hf := basicProcess_nonempty_ctx .profile env st query
        (profileFullContext env query ctx)
        (profileFullContext_ne_nil env query ctx)
      have h2 : processUncached .profile env st query
          (profileFullContext env query ctx) = (r, st') := by
        unfold profileProcess at h1
        rw [hf] at h1
        exact h1
      have h3 : r = (processUncached .profile env st query
          (profileFullContext env query ctx)).1 := by rw [h2]
      rw [h3]
      exact processUncached_wf _ _ _ _ _
  | project =>
      have h1 : basicProcess .project env st query
          (projectContext env query ctx) = .ok (r, st') := h
      rw [basicProcess_nonempty_ctx _ _ _ _ _
        (projectContext_ne_nil env query ctx)] at h1
      simp only [Except.ok.injEq] at h1
      have h3 : r = (processUncached .project env st query
          (projectContext env query ctx)).1 := by rw [h1]
      rw [h3]
      exact processUncached_wf _ _ _ _ _
  | career =>
      have h1 : basicProcess .career env st query ctx = .ok (r, st') := h
      by_cases hc : ctx = []
      · rw [hc, basicProcess_empty_ctx] at h1
        exact absurd h1 (by simp)
      · rw [basicProcess_nonempty_ctx _ _ _ _ _ hc] at h1
        simp only [Except.ok.injEq] at h1
        have h3 : r = (processUncached .career env st query ctx).1 := by rw [h1]
        rw [h3]
        exact processUncached_wf _ _ _ _ _
  | demo =>
      have h1 : basicProcess .demo env st query ctx = .ok (r, st') := h
      by_cases hc : ctx = []
      · rw [hc, basicProcess_empty_ctx] at h1
        exact absurd h1 (by simp)
      · rw [basicProcess_nonempty_ctx _ _ _ _ _ hc] at h1
        simp only [Except.ok.injEq] at h1
        have h3 : r = (processUncached .demo env st query ctx).1 := by rw [h1]
        rw [h3]
        exact processUncached_wf _ _ _ _ _
  | strategic_fit =>
      have h1 : basicProcess .strategic_fit env st query
          (strategicContext env query ctx) = .ok (r, st') := h
      by_cases hj : strategicContext env query ctx = []
      · rw [hj, basicProcess_empty_ctx] at h1
        exact absurd h1 (by simp)
      · rw [basicProcess_nonempty_ctx _ _ _ _ _ hj] at h1
        simp only [Except.ok.injEq] at h1
        have h3 : r = (processUncached .strategic_fit env st query
            (strategicContext env query ctx)).1 := by rw [h1]
        rw [h3]
        exact processUncached_wf _ _ _ _ _

theorem processQueryInner_ok_wf (env : Env) (st0 : SysState) (query : String)
    (ctx : List (String × String)) (t : ℚ) (r : AgentResult) (s1 : SysState)
    (h : processQueryInner env st0 query ctx t = .ok (r, s1)) :
    r.wellFormed := by
  unfold processQueryInner at h
  rcases ha : agentOf (route_query env query) with _ | k
  · rw [ha] at h
    dsimp only at h
    simp only [Except.ok.injEq, Prod.mk.injEq] at h
    rw [← h.1]
    unfold AgentResult.wellFormed
    dsimp only
    exact ⟨by decide, by decide, by decide⟩
  · rw [ha] at h
    dsimp only at h
    rcases hap : agentProcess k env st0 query ctx with e | ⟨result, st1⟩
    · rw [hap] at h
      exact absurd h (by simp)
    · rw [hap] at h
      dsimp only at h
      simp only [Except.ok.injEq, Prod.mk.injEq] at h
      have hw := agentProcess_ok_wf k env st0 query ctx result st1 hap
      rw [← h.1]
      exact hw

/-- C1: `process_query` is a total function — for every query string and
every context mapping it returns a well-formed structured result — and
whenever the routing/handler computation raises, the router boundary
converts the exception into the generic apologetic result with viewport
type `"error"`, the exception text as viewport message, and
`agent_used = "error"`. -/
theorem C1_router_never_throws (env : Env) (st : SysState) (query : String)
    (ctx : List (String × String)) :
    (process_query env st query ctx).1.wellFormed ∧
    ∀ e : PyExn,
      processQueryInner env { st with tick := st.tick + 1 } query ctx
          ((st.tick : ℕ) : ℚ) = .error e →
      (process_query env st query ctx).1 =
        { response := "I encountered an error while processing your request. Please try again.",
          viewport_content := { vtype := "error", message := some e.msg },
          agent_used := "error",
          processing_time := ((st.tick + 1 : ℕ) : ℚ) - ((st.tick : ℕ) : ℚ) } := by
  constructor
  · unfold process_query
    simp only [pyTime]
    rcases hin : processQueryInner env { st with tick := st.tick + 1 } query ctx
        ((st.tick : ℕ) : ℚ) with e | ⟨r, s1⟩
    · unfold AgentResult.wellFormed
      refine ⟨?_, ?_, ?_⟩ <;> · dsimp only; decide
    · dsimp only
      exact processQueryInner_ok_wf env _ query ctx _ r s1 hin
  · intro e he
    unfold process_query
    simp only [pyTime]
    rw [he]

/-- Witness for C1: the offline environment with the career-routed query;
the inner computation raises the `cache_enabled` AttributeError and the
boundary yields the converted error result. -/
theorem C1_router_never_throws_witness :
    (process_query demoEnvOffline demoState
        "career advice job search interview prep" []).1.wellFormed ∧
    (process_query demoEnvOffline demoState
        "career advice job search interview prep" []).1 =
      { response := "I encountered an error while processing your request. Please try again.",
        viewport_content :=
          { vtype := "error", message := some cacheEnabledExn.msg },
        agent_used := "error",
        processing_time :=
          ((demoState.tick + 1 : ℕ) : ℚ) - ((demoState.tick : ℕ) : ℚ) } :=
  ⟨(C1_router_never_throws demoEnvOffline demoState
      "career advice job search interview prep" []).1,
   (C1_router_never_throws demoEnvOffline demoState
      "career advice job search interview prep" []).2 cacheEnabledExn
    (by
      have hr : route_query demoEnvOffline
          "career advice job search interview prep" = "career" := by
        norm_num +decide [route_query, get_keyword_route, scoresList,
          keywordTable, categoryScore, scoreWords, bestAgent, profile_keywords,
          project_keywords, career_keywords, demo_keywords, strategic_keywords,
          List.foldl]
      unfold processQueryInner
      rw [hr]
      rfl)⟩


end Portfolio


namespace Portfolio

/-! ## The cache-hit scenario (C3) -/

/-- A concrete environment whose remote client always replies with a fixed
project answer (router verification client left unconfigured, so routing is
by keywords). -/
def demoEnvOnline : Env :=
  { demoEnvOffline with
    agent_llm := some (fun _ _ => .ok "Here are my projects!") }

/-- The first `process_query("What projects have you built?")` call. -/
def c3first : AgentResult × SysState :=
  process_query demoEnvOnline demoState "What projects have you built?" []

/-- The immediately following identical call, on the state the first one
left behind. -/
def c3second : AgentResult × SysState :=
  process_query demoEnvOnline c3first.2 "What projects have you built?" []

set_option maxHeartbeats 2000000 in
/-- C3 evaluated at the failing input: the query keyword-routes to the
project handler, which always injects its assembled `"projects"` context, so
the base `process` skips the cache path entirely (`not context` is false) —
and the cache path would in any case raise on the missing
`settings.cache_enabled`.  Consequently the second identical call carries no
`cached` marker, its reply comes from a fresh remote call, and the shared
cache is still empty after both calls — where the claim requires
`cached = true`, processing time 0, and no remote invocation. -/
theorem C3_second_call_not_served_from_cache :
    c3first.1.cached = none ∧ c3first.2.cache.cache = [] ∧
    c3second.1.cached = none ∧
    c3second.1.viewport_content.vtype = "project_info" ∧
    c3second.1.response = "Here are my projects!" ∧
    c3second.1.routed_to = some "project" ∧
    c3second.2.cache.cache = [] := by
  have hr : route_query demoEnvOnline "What projects have you built?" =
      "project" := by
    norm_num +decide [route_query, get_keyword_route, scoresList, keywordTable,
      categoryScore, scoreWords, bestAgent, profile_keywords, project_keywords,
      career_keywords, demo_keywords, strategic_keywords, List.foldl,
      demoEnvOnline, demoEnvOffline]
  have h1 : c3first.1.cached = none ∧ c3first.2.cache.cache = [] := by
    unfold c3first process_query processQueryInner
    rw [hr]
    exact ⟨rfl, rfl⟩
  have h2 : c3second.1.cached = none ∧
      c3second.1.viewport_content.vtype = "project_info" ∧
      c3second.1.response = "Here are my projects!" ∧
      c3second.1.routed_to = some "project" ∧
      c3second.2.cache.cache = [] := by
    unfold c3second c3first process_query processQueryInner
    rw [hr]
    exact ⟨rfl, rfl, rfl, rfl, rfl⟩
  exact ⟨h1.1, h1.2, h2.1, h2.2.1, h2.2.2.1, h2.2.2.2.1, h2.2.2.2.2⟩

end Portfolio
